import Mathlib

/-! ACADO code generation: the Gauss-Newton / HPMPC solver export

A shallow embedding of `src/code_generation/export_gauss_newton_hpmpc.cpp`.
The C++ class `ExportGaussNewtonHpmpc` is a record of its members; every member
function that mutates the object becomes a function from the record to the
updated record (plus its return value).  Statements of the generated program are
never executed by the generator, only recorded, so they are modelled as syntax
trees, in insertion order.
-/

set_option autoImplicit false
set_option linter.unusedVariables false

namespace Acado

/-! ## Numeric payloads -/

/-- Dense vector of reals (`DVector`); the reals are idealised as rationals. -/
abbrev DVector := List ℚ

/-- Dense matrix of reals (`DMatrix`), stored as a list of rows. -/
abbrev DMatrix := List (List ℚ)

/-- Modelled from the spec: the zero literal constructor `zeros<double>(r, c)`,
a matrix of the requested shape with every entry zero. -/
def zeros (nRows nCols : Nat) : DMatrix :=
  List.replicate nRows (List.replicate nCols 0)

/-- Modelled from the spec: the identity literal constructor `eye<double>(n)`. -/
def eye (n : Nat) : DMatrix :=
  (List.range n).map fun i => (List.range n).map fun j => if i = j then 1 else 0

/-- Modelled from the spec: in-place scaling `m *= c` of a matrix by a scalar. -/
def DMatrix.scale (m : DMatrix) (c : ℚ) : DMatrix :=
  m.map fun row => row.map fun e => e * c

/-- Modelled from the spec: `isZero()`, true when every entry is zero. -/
def DMatrix.isZero (m : DMatrix) : Bool :=
  m.all fun row => row.all fun e => e == 0

/-- Entry `(i, j)` of a matrix payload (zero outside the stored range). -/
def DMatrix.entry (m : DMatrix) (i j : Nat) : ℚ :=
  (m.getD i []).getD j 0

/-- A vector read as a one-column matrix. -/
def DVector.toColumn (v : DVector) : DMatrix :=
  v.map fun e => [e]

/-- Box bounds on a grid: the lower and the upper bound vector of every node. -/
structure VariablesGrid where
  lowerBounds : List DVector := []
  upperBounds : List DVector := []
deriving DecidableEq, Repr

/-- Modelled from the spec: `getLowerBounds(node)`, the lower bound vector of a
node of the bound sequence. -/
def VariablesGrid.getLowerBounds (g : VariablesGrid) (node : Nat) : DVector :=
  g.lowerBounds.getD node []

/-- Modelled from the spec: `getUpperBounds(node)`, the upper bound vector of a
node of the bound sequence. -/
def VariablesGrid.getUpperBounds (g : VariablesGrid) (node : Nat) : DVector :=
  g.upperBounds.getD node []

/-! ## Return values -/

/-- The return codes this file uses. -/
inductive returnValue
  | SUCCESSFUL_RETURN
  | RET_INVALID_ARGUMENTS
deriving DecidableEq, Repr

/-- The value of the option constant `YES`. -/
def YES : Int := 1

/-! ## Operand model -/

/-- Element type of an exported variable. -/
inductive ExportType
  | INT
  | REAL
  | STATIC_CONST_INT
  | STATIC_CONST_REAL
deriving DecidableEq, Repr

/-- Storage class of an exported variable. -/
inductive ExportStruct
  | ACADO_VARIABLES
  | ACADO_WORKSPACE
  | ACADO_PARAMS
  | ACADO_VARS
  | ACADO_LOCAL
  | ACADO_ANY
deriving DecidableEq, Repr

/-- An operand (`ExportVariable`): name, shape, element type, storage class and,
when the operand is given, its constant payload. -/
structure ExportVariable where
  name : String := ""
  nRows : Nat := 0
  nCols : Nat := 0
  type : ExportType := ExportType.REAL
  dataStruct : ExportStruct := ExportStruct.ACADO_LOCAL
  callItByValue : Bool := false
  data : Option DMatrix := none
  doc : String := ""
deriving DecidableEq, Repr

/-- Modelled from the spec: `declare(name, rows, cols, storageClass)` without a
payload, the call `v.setup(name, nRows, nCols, type, dataStruct)` and the
constructor of the same arguments: a computed operand. -/
def ExportVariable.setup (name : String) (nRows nCols : Nat) (type : ExportType)
    (dataStruct : ExportStruct) (callItByValue : Bool := false) : ExportVariable :=
  { name := name, nRows := nRows, nCols := nCols, type := type, dataStruct := dataStruct,
    callItByValue := callItByValue }

/-- Modelled from the spec: declaring with a payload fixes given-status to true;
the call `v.setup(name, data, type, dataStruct)` with a vector payload, stored as
one column. -/
def ExportVariable.setupGiven (name : String) (data : DVector) (type : ExportType)
    (dataStruct : ExportStruct) : ExportVariable :=
  { name := name, nRows := data.length, nCols := 1, type := type, dataStruct := dataStruct,
    data := some data.toColumn }

/-- Modelled from the spec: the conversion of a literal matrix to an (anonymous,
given) operand, as in `ExportVariable evLmX = zeros<double>(NX, NX)`. -/
def ExportVariable.ofMatrix (m : DMatrix) : ExportVariable :=
  { nRows := m.length, nCols := (m.headD []).length, data := some m }

/-- Modelled from the spec: given-status, true when the operand has a payload. -/
def ExportVariable.isGiven (v : ExportVariable) : Bool :=
  v.data.isSome

/-- Modelled from the spec: the payload of a given operand. -/
def ExportVariable.getGivenMatrix (v : ExportVariable) : DMatrix :=
  v.data.getD []

/-- Number of entries of an operand, `getDim()`. -/
def ExportVariable.getDim (v : ExportVariable) : Nat :=
  v.nRows * v.nCols

/-- The call `v.setDoc(text)`. -/
def ExportVariable.setDoc (v : ExportVariable) (text : String) : ExportVariable :=
  { v with doc := text }

/-- An index expression (`ExportIndex`): a constant, a named index bound by a
loop or a function parameter, or a sum or product of index expressions. -/
inductive ExportIndex
  | const (value : Nat)
  | var (name : String)
  | add (a b : ExportIndex)
  | mul (a b : ExportIndex)
deriving DecidableEq, Repr

/-! ## Expression and statement IR -/

/-- Expressions over operands: references, slices, transposition, flattening,
addresses of sub-blocks (call arguments) and arithmetic. `tmul a b` is the
operator `a ^ b`, the product of the transpose of `a` with `b`. -/
inductive Expr
  | var (v : ExportVariable)
  | index (i : ExportIndex)
  | lit (c : ℚ)
  | getRows (e : Expr) (rowIdx1 rowIdx2 : ExportIndex)
  | getCols (e : Expr) (colIdx1 colIdx2 : ExportIndex)
  | getRow (e : Expr) (idx : ExportIndex)
  | getSubMatrix (e : Expr) (rowIdx1 rowIdx2 colIdx1 colIdx2 : ExportIndex)
  | getTranspose (e : Expr)
  | makeColVector (e : Expr)
  | getAddress (e : Expr) (rowIdx colIdx : ExportIndex)
  | add (a b : Expr)
  | sub (a b : Expr)
  | mul (a b : Expr)
  | tmul (a b : Expr)
deriving DecidableEq, Repr

/-- One piece of a raw-text statement built by a chain of stream insertions. -/
inductive Piece
  | str (text : String)
  | fullName (v : ExportVariable)
  | addressString (v : ExportVariable) (withDataStruct : Bool)
  | toString (n : Nat)
deriving DecidableEq, Repr

/-- A statement of the generated program. A chain `block << a << b << ...` is
recorded as one `string` statement holding its pieces in insertion order, and
`addLinebreak(num)` as a `linebreak` statement of its own. -/
inductive ExportStatement
  | assign (lhs rhs : Expr)
  | addAssign (lhs rhs : Expr)
  | subAssign (lhs rhs : Expr)
  | functionCall (name : String) (args : List Expr)
  | string (pieces : List Piece)
  | linebreak (num : Nat)
deriving DecidableEq, Repr

/-- An indexed loop (`ExportForLoop`) over `[startValue, finalValue)`. -/
structure ExportForLoop where
  loopVariable : ExportIndex
  startValue : Nat
  finalValue : Nat
  statements : List ExportStatement := []
deriving DecidableEq, Repr

/-- An item of a function body: a statement or a loop. -/
inductive BlockItem
  | statement (st : ExportStatement)
  | forLoop (loop : ExportForLoop)
deriving DecidableEq, Repr

/-- A function of the generated program (`ExportFunction`). -/
structure ExportFunction where
  name : String := ""
  arguments : List Expr := []
  returnValue : Option ExportVariable := none
  returnAsPointer : Option Bool := none
  description : String := ""
  indices : List ExportIndex := []
  localVariables : List ExportVariable := []
  statements : List BlockItem := []
deriving DecidableEq, Repr

/-- The call `loop.addStatement(st)`. -/
def ExportForLoop.addStatement (l : ExportForLoop) (st : ExportStatement) : ExportForLoop :=
  { l with statements := l.statements ++ [st] }

/-- The call `loop.addFunctionCall(f, args...)`. -/
def ExportForLoop.addFunctionCall (l : ExportForLoop) (f : ExportFunction)
    (args : List Expr) : ExportForLoop :=
  l.addStatement (ExportStatement.functionCall f.name args)

/-- The call `loop.addLinebreak(num)`. -/
def ExportForLoop.addLinebreak (l : ExportForLoop) (num : Nat := 1) : ExportForLoop :=
  l.addStatement (ExportStatement.linebreak num)

/-- Modelled from the spec: `setup(name, params...)` names a function and fixes
its ordered parameter operands; the body keeps the statements it has. -/
def ExportFunction.setup (f : ExportFunction) (name : String) (args : List Expr := []) :
    ExportFunction :=
  { f with name := name, arguments := args }

/-- The call `f.addStatement(st)`: insertion order is emission order. -/
def ExportFunction.addStatement (f : ExportFunction) (st : ExportStatement) : ExportFunction :=
  { f with statements := f.statements ++ [BlockItem.statement st] }

/-- The call `f.addStatement(loop)`. -/
def ExportFunction.addLoop (f : ExportFunction) (l : ExportForLoop) : ExportFunction :=
  { f with statements := f.statements ++ [BlockItem.forLoop l] }

/-- The call `f.addFunctionCall(g, args...)`. -/
def ExportFunction.addFunctionCall (f : ExportFunction) (g : ExportFunction)
    (args : List Expr := []) : ExportFunction :=
  f.addStatement (ExportStatement.functionCall g.name args)

/-- The call `f.addLinebreak(num)`. -/
def ExportFunction.addLinebreak (f : ExportFunction) (num : Nat := 1) : ExportFunction :=
  f.addStatement (ExportStatement.linebreak num)

/-- The stream insertion chain `f << p1 << p2 << ...`. -/
def ExportFunction.insert (f : ExportFunction) (pieces : List Piece) : ExportFunction :=
  f.addStatement (ExportStatement.string pieces)

/-- The call `f.addIndex(i)`. -/
def ExportFunction.addIndex (f : ExportFunction) (i : ExportIndex) : ExportFunction :=
  { f with indices := f.indices ++ [i] }

/-- The call `f.addVariable(v)`. -/
def ExportFunction.addVariable (f : ExportFunction) (v : ExportVariable) : ExportFunction :=
  { f with localVariables := f.localVariables ++ [v] }

/-- The call `f.setReturnValue(v, returnAsPointer)`; the flag is `none` when the
call leaves it to its default. -/
def ExportFunction.setReturnValue (f : ExportFunction) (v : ExportVariable)
    (returnAsPointer : Option Bool := none) : ExportFunction :=
  { f with returnValue := some v, returnAsPointer := returnAsPointer }

/-- The call `f.doc(text)`. -/
def ExportFunction.setDescription (f : ExportFunction) (text : String) : ExportFunction :=
  { f with description := text }

/-- An item of the top-level code block filled by `getCode`. -/
inductive CodeItem
  | statement (st : ExportStatement)
  | declaration (v : ExportVariable)
  | function (f : ExportFunction)
deriving DecidableEq, Repr

/-- The C++ loop `for (unsigned i = lo; i < hi; ++i) body(i)` over a state. -/
def forLoop {σ : Type} (lo hi : Nat) (body : Nat → σ → σ) (init : σ) : σ :=
  (List.range' lo (hi - lo)).foldl (fun acc i => body i acc) init

/-! ## The solver object -/

/-- The members of `ExportGaussNewtonHpmpc` (its own and those it inherits from the
NLP-solver base class) that the source file reads or writes: problem dimensions,
options, bound sequences, operands and functions of the generated program. -/
structure ExportGaussNewtonHpmpc where
  N : Nat
  NX : Nat
  NU : Nat
  NY : Nat
  NYN : Nat
  NOD : Nat
  levenbergMarquardt : ℚ := 0
  CG_USE_VARIABLE_WEIGHTING_MATRIX : Int := 0
  CG_USE_OPENMP : Int := 0
  CG_EXPORT_FOLDER_NAME : String := ""
  initialStateFixed : Bool := true
  uBounds : VariablesGrid := {}
  xBounds : VariablesGrid := {}
  x : ExportVariable := {}
  u : ExportVariable := {}
  od : ExportVariable := {}
  y : ExportVariable := {}
  yN : ExportVariable := {}
  Dy : ExportVariable := {}
  DyN : ExportVariable := {}
  state : ExportVariable := {}
  objValueIn : ExportVariable := {}
  objValueOut : ExportVariable := {}
  objS : ExportVariable := {}
  objSEndTerm : ExportVariable := {}
  objEvFx : ExportVariable := {}
  objEvFu : ExportVariable := {}
  objEvFxEnd : ExportVariable := {}
  Q1 : ExportVariable := {}
  Q2 : ExportVariable := {}
  R1 : ExportVariable := {}
  R2 : ExportVariable := {}
  S1 : ExportVariable := {}
  QN1 : ExportVariable := {}
  QN2 : ExportVariable := {}
  evGx : ExportVariable := {}
  evGu : ExportVariable := {}
  d : ExportVariable := {}
  x0 : ExportVariable := {}
  qpQ : ExportVariable := {}
  qpQf : ExportVariable := {}
  qpS : ExportVariable := {}
  qpR : ExportVariable := {}
  qpq : ExportVariable := {}
  qpqf : ExportVariable := {}
  qpr : ExportVariable := {}
  qpx : ExportVariable := {}
  qpu : ExportVariable := {}
  qpLb : ExportVariable := {}
  qpUb : ExportVariable := {}
  nIt : ExportVariable := {}
  evLbValues : ExportVariable := {}
  evUbValues : ExportVariable := {}
  modelSimulation : ExportFunction := {}
  evaluateLSQ : ExportFunction := {}
  evaluateLSQEndTerm : ExportFunction := {}
  setObjQ1Q2 : ExportFunction := {}
  setObjR1R2 : ExportFunction := {}
  setObjQN1QN2 : ExportFunction := {}
  setStageH : ExportFunction := {}
  setStagef : ExportFunction := {}
  evaluateObjective : ExportFunction := {}
  evaluateConstraints : ExportFunction := {}
  acc : ExportFunction := {}
  preparation : ExportFunction := {}
  feedback : ExportFunction := {}
  initializeFcn : ExportFunction := {}
  initializeNodes : ExportFunction := {}
  shiftStates : ExportFunction := {}
  shiftControls : ExportFunction := {}
  getKKT : ExportFunction := {}
  getObjective : ExportFunction := {}
  copiedTemplates : List (String × String) := []
deriving DecidableEq, Repr

/-- The accessor `getNX()`. -/
def ExportGaussNewtonHpmpc.getNX (s : ExportGaussNewtonHpmpc) : Nat := s.NX

/-- The accessor `getNY()`. -/
def ExportGaussNewtonHpmpc.getNY (s : ExportGaussNewtonHpmpc) : Nat := s.NY

/-- The accessor `getNYN()`. -/
def ExportGaussNewtonHpmpc.getNYN (s : ExportGaussNewtonHpmpc) : Nat := s.NYN

/-- The function `getNumQPvars`. -/
def getNumQPvars (s : ExportGaussNewtonHpmpc) : Nat :=
  (s.N + 1) * s.NX + s.N * s.NU

/-- How a member function that can stop the generation ends: it returns a value,
with the solver object as it has left it; or it fails with a fatal error of some
kind; or a generation-time assertion fails. Modelled from the spec: the macros
`ACADOFATALTEXT` and `ASSERT` are not part of the source file; a fatal failure
aborts the whole generation pass and a failed assertion stops the generation at
that point. -/
inductive Result
  | returned (rv : returnValue) (s : ExportGaussNewtonHpmpc)
  | fatal (rv : returnValue) (s : ExportGaussNewtonHpmpc)
  | assertionFailed (s : ExportGaussNewtonHpmpc)
deriving DecidableEq, Repr

/-- Modelled from the spec: the macro `ACADOFATALTEXT(retval, text)` is not part of
the source file. The failure it builds is fatal: generation fails immediately
with the error of kind `retval` (carrying `text`) and the whole generation pass
is aborted, with the solver object as the failing function has left it. -/
def ACADOFATALTEXT (retval : returnValue) (text : String) (s : ExportGaussNewtonHpmpc) :
    Result :=
  Result.fatal retval s

/-- The solver object a member function has left behind. -/
def Result.solver : Result → ExportGaussNewtonHpmpc
  | Result.returned _ s => s
  | Result.fatal _ s => s
  | Result.assertionFailed s => s

/-- The value a member function has returned or has failed with, if any. -/
def Result.value : Result → Option returnValue
  | Result.returned rv _ => some rv
  | Result.fatal rv _ => some rv
  | Result.assertionFailed _ => none

/-! ## Objective evaluation -/

/-- The function `ExportGaussNewtonHpmpc::setupObjectiveEvaluation` (source lines
177-463). Local objects of the C++ function are `let` bindings, rebound after
every mutation; a block that mutates several objects returns them as a tuple. -/
def setupObjectiveEvaluation (s : ExportGaussNewtonHpmpc) : Result :=
  let evaluateObjective := s.evaluateObjective.setup "evaluateObjective"
  let variableObjS := s.CG_USE_VARIABLE_WEIGHTING_MATRIX
  if s.S1.isGiven == false || s.S1.getGivenMatrix.isZero == false then
    ACADOFATALTEXT returnValue.RET_INVALID_ARGUMENTS
      "Mixed control-state terms in the objective function are not supported at the moment."
      { s with evaluateObjective := evaluateObjective }
  else
    -- LM regularization preparation
    let evLmX := ExportVariable.ofMatrix (zeros s.NX s.NX)
    let evLmU := ExportVariable.ofMatrix (zeros s.NU s.NU)
    let evLm : ExportVariable × ExportVariable :=
      if s.levenbergMarquardt > 0 then
        let lmX := (eye s.NX).scale s.levenbergMarquardt
        let lmU := (eye s.NU).scale s.levenbergMarquardt
        (ExportVariable.ofMatrix lmX, ExportVariable.ofMatrix lmU)
      else (evLmX, evLmU)
    let evLmX := evLm.1
    let evLmU := evLm.2
    -- Main loop that calculates Hessian and gradients
    let runObj := ExportIndex.var "runObj"
    let loopObjective : ExportForLoop :=
      { loopVariable := runObj, startValue := 0, finalValue := s.N }
    let evaluateObjective := evaluateObjective.addIndex runObj
    let loopObjective := loopObjective.addStatement
      (.assign (.getCols (.var s.objValueIn) (.const 0) (.const s.getNX)) (.getRow (.var s.x) runObj))
    let loopObjective := loopObjective.addStatement
      (.assign (.getCols (.var s.objValueIn) (.const s.NX) (.const (s.NX + s.NU)))
        (.getRow (.var s.u) runObj))
    let loopObjective := loopObjective.addStatement
      (.assign (.getCols (.var s.objValueIn) (.const (s.NX + s.NU)) (.const (s.NX + s.NU + s.NOD)))
        (.getRow (.var s.od) runObj))
    let loopObjective := loopObjective.addLinebreak
    -- Evaluate the objective function
    let loopObjective := loopObjective.addFunctionCall s.evaluateLSQ
      [.var s.objValueIn, .var s.objValueOut]
    -- Stack the measurement function value
    let loopObjective := loopObjective.addStatement
      (.assign
        (.getRows (.var s.Dy) (.mul runObj (.const s.NY)) (.mul (.add runObj (.const 1)) (.const s.NY)))
        (.getRows (.getTranspose (.var s.objValueOut)) (.const 0) (.const s.getNY)))
    let loopObjective := loopObjective.addLinebreak
    -- Optionally compute derivatives
    let indexX : Nat := s.getNY
    let tmpObjS := ExportVariable.setup "tmpObjS" s.NY s.NY .REAL .ACADO_LOCAL
    let tmpObjS := if s.objS.isGiven == true then s.objS else tmpObjS
    let tmpFx := ExportVariable.setup "tmpFx" s.NY s.NX .REAL .ACADO_LOCAL
    let tmpFx := if s.objEvFx.isGiven == true then s.objEvFx else tmpFx
    let tmpFu := ExportVariable.setup "tmpFu" s.NY s.NU .REAL .ACADO_LOCAL
    let tmpFu := if s.objEvFu.isGiven == true then s.objEvFu else tmpFu
    let tmpFxEnd := ExportVariable.setup "tmpFx" s.NYN s.NX .REAL .ACADO_LOCAL
    let tmpFxEnd := if s.objEvFxEnd.isGiven == true then s.objEvFxEnd else tmpFxEnd
    let tmpObjSEndTerm := ExportVariable.setup "tmpObjSEndTerm" s.NYN s.NYN .REAL .ACADO_LOCAL
    let tmpObjSEndTerm := if s.objSEndTerm.isGiven == true then s.objSEndTerm else tmpObjSEndTerm
    -- Optional computation of Q1, Q2
    let blockQ : ExportFunction × ExportForLoop × Nat :=
      if s.Q1.isGiven == false then
        let tmpQ1 := ExportVariable.setup "tmpQ1" s.NX s.NX .REAL .ACADO_LOCAL
        let tmpQ2 := ExportVariable.setup "tmpQ2" s.NX s.NY .REAL .ACADO_LOCAL
        let setObjQ1Q2 := s.setObjQ1Q2.setup "setObjQ1Q2"
          [.var tmpFx, .var tmpObjS, .var tmpQ1, .var tmpQ2]
        let setObjQ1Q2 := setObjQ1Q2.addStatement
          (.assign (.var tmpQ2) (.tmul (.var tmpFx) (.var tmpObjS)))
        let setObjQ1Q2 := setObjQ1Q2.addStatement
          (.assign (.var tmpQ1) (.mul (.var tmpQ2) (.var tmpFx)))
        let inner : ExportForLoop × Nat :=
          if tmpFx.isGiven == true then
            if variableObjS == YES then
              (loopObjective.addFunctionCall setObjQ1Q2
                [.var tmpFx, .getAddress (.var s.objS) (.mul runObj (.const s.NY)) (.const 0),
                 .getAddress (.var s.Q1) (.mul runObj (.const s.NX)) (.const 0),
                 .getAddress (.var s.Q2) (.mul runObj (.const s.NX)) (.const 0)], indexX)
            else
              (loopObjective.addFunctionCall setObjQ1Q2
                [.var tmpFx, .var s.objS,
                 .getAddress (.var s.Q1) (.mul runObj (.const s.NX)) (.const 0),
                 .getAddress (.var s.Q2) (.mul runObj (.const s.NX)) (.const 0)], indexX)
          else
            let loopObjective :=
              if variableObjS == YES then
                if s.objEvFx.isGiven == true then
                  loopObjective.addFunctionCall setObjQ1Q2
                    [.getAddress (.var s.objValueOut) (.const 0) (.const indexX),
                     .getAddress (.var s.objS) (.mul runObj (.const s.NY)) (.const 0),
                     .getAddress (.var s.Q1) (.mul runObj (.const s.NX)) (.const 0),
                     .getAddress (.var s.Q2) (.mul runObj (.const s.NX)) (.const 0)]
                else loopObjective
              else
                loopObjective.addFunctionCall setObjQ1Q2
                  [.getAddress (.var s.objValueOut) (.const 0) (.const indexX), .var s.objS,
                   .getAddress (.var s.Q1) (.mul runObj (.const s.NX)) (.const 0),
                   .getAddress (.var s.Q2) (.mul runObj (.const s.NX)) (.const 0)]
            (loopObjective, indexX + s.objEvFx.getDim)
        (setObjQ1Q2, inner.1.addLinebreak, inner.2)
      else (s.setObjQ1Q2, loopObjective, indexX)
    let setObjQ1Q2 := blockQ.1
    let loopObjective := blockQ.2.1
    let indexX := blockQ.2.2
    -- Optional computation of R1, R2
    let blockR : ExportFunction × ExportForLoop :=
      if s.R1.isGiven == false then
        let tmpR1 := ExportVariable.setup "tmpR1" s.NU s.NU .REAL .ACADO_LOCAL
        let tmpR2 := ExportVariable.setup "tmpR2" s.NU s.NY .REAL .ACADO_LOCAL
        let setObjR1R2 := s.setObjR1R2.setup "setObjR1R2"
          [.var tmpFu, .var tmpObjS, .var tmpR1, .var tmpR2]
        let setObjR1R2 := setObjR1R2.addStatement
          (.assign (.var tmpR2) (.tmul (.var tmpFu) (.var tmpObjS)))
        let setObjR1R2 := setObjR1R2.addStatement
          (.assign (.var tmpR1) (.mul (.var tmpR2) (.var tmpFu)))
        let loopObjective :=
          if tmpFu.isGiven == true then
            if variableObjS == YES then
              loopObjective.addFunctionCall setObjR1R2
                [.var tmpFu, .getAddress (.var s.objS) (.mul runObj (.const s.NY)) (.const 0),
                 .getAddress (.var s.R1) (.mul runObj (.const s.NU)) (.const 0),
                 .getAddress (.var s.R2) (.mul runObj (.const s.NU)) (.const 0)]
            else
              loopObjective.addFunctionCall setObjR1R2
                [.var tmpFu, .var s.objS,
                 .getAddress (.var s.R1) (.mul runObj (.const s.NU)) (.const 0),
                 .getAddress (.var s.R2) (.mul runObj (.const s.NU)) (.const 0)]
          else
            if variableObjS == YES then
              loopObjective.addFunctionCall setObjR1R2
                [.getAddress (.var s.objValueOut) (.const 0) (.const indexX),
                 .getAddress (.var s.objS) (.mul runObj (.const s.NY)) (.const 0),
                 .getAddress (.var s.R1) (.mul runObj (.const s.NU)) (.const 0),
                 .getAddress (.var s.R2) (.mul runObj (.const s.NU)) (.const 0)]
            else
              loopObjective.addFunctionCall setObjR1R2
                [.getAddress (.var s.objValueOut) (.const 0) (.const indexX), .var s.objS,
                 .getAddress (.var s.R1) (.mul runObj (.const s.NU)) (.const 0),
                 .getAddress (.var s.R2) (.mul runObj (.const s.NU)) (.const 0)]
        (setObjR1R2, loopObjective.addLinebreak)
      else (s.setObjR1R2, loopObjective)
    let setObjR1R2 := blockR.1
    let loopObjective := blockR.2
    let evaluateObjective := evaluateObjective.addLoop loopObjective
    -- Evaluate the quadratic Mayer term
    let evaluateObjective := evaluateObjective.addStatement
      (.assign (.getCols (.var s.objValueIn) (.const 0) (.const s.NX))
        (.getRow (.var s.x) (.const s.N)))
    let evaluateObjective := evaluateObjective.addStatement
      (.assign (.getCols (.var s.objValueIn) (.const s.NX) (.const (s.NX + s.NOD)))
        (.getRow (.var s.od) (.const s.N)))
    -- Evaluate the objective function
    let evaluateObjective := evaluateObjective.addFunctionCall s.evaluateLSQEndTerm
      [.var s.objValueIn, .var s.objValueOut]
    let evaluateObjective := evaluateObjective.addLinebreak
    let evaluateObjective := evaluateObjective.addStatement
      (.assign (.getTranspose (.var s.DyN))
        (.getCols (.var s.objValueOut) (.const 0) (.const s.NYN)))
    let evaluateObjective := evaluateObjective.addLinebreak
    let blockQN : ExportFunction × ExportFunction :=
      if s.QN1.isGiven == false then
        let indexX := s.getNYN
        let tmpQN1 := ExportVariable.setup "tmpQN1" s.NX s.NX .REAL .ACADO_LOCAL
        let tmpQN2 := ExportVariable.setup "tmpQN2" s.NX s.NYN .REAL .ACADO_LOCAL
        let setObjQN1QN2 := s.setObjQN1QN2.setup "setObjQN1QN2"
          [.var tmpFxEnd, .var tmpObjSEndTerm, .var tmpQN1, .var tmpQN2]
        let setObjQN1QN2 := setObjQN1QN2.addStatement
          (.assign (.var tmpQN2) (.tmul (.var tmpFxEnd) (.var tmpObjSEndTerm)))
        let setObjQN1QN2 := setObjQN1QN2.addStatement
          (.assign (.var tmpQN1) (.mul (.var tmpQN2) (.var tmpFxEnd)))
        let evaluateObjective :=
          if tmpFxEnd.isGiven == true then
            evaluateObjective.addFunctionCall setObjQN1QN2
              [.var tmpFxEnd, .var s.objSEndTerm,
               .getAddress (.var s.QN1) (.const 0) (.const 0),
               .getAddress (.var s.QN2) (.const 0) (.const 0)]
          else
            evaluateObjective.addFunctionCall setObjQN1QN2
              [.getAddress (.var s.objValueOut) (.const 0) (.const indexX), .var s.objSEndTerm,
               .getAddress (.var s.QN1) (.const 0) (.const 0),
               .getAddress (.var s.QN2) (.const 0) (.const 0)]
        (setObjQN1QN2, evaluateObjective.addLinebreak)
      else (s.setObjQN1QN2, evaluateObjective)
    let setObjQN1QN2 := blockQN.1
    let evaluateObjective := blockQN.2
    -- Hessian setup
    let index := ExportIndex.var "index"
    -- Gradient setup
    let qq := ExportVariable.setup "stageq" s.NX 1 .REAL .ACADO_LOCAL
    let rr := ExportVariable.setup "stager" s.NU 1 .REAL .ACADO_LOCAL
    let setStagef := s.setStagef.setup "setStagef" [.var qq, .var rr, .index index]
    let setStagef :=
      if s.Q2.isGiven == false then
        setStagef.addStatement
          (.assign (.var qq)
            (.mul
              (.getSubMatrix (.var s.Q2) (.mul index (.const s.NX))
                (.mul (.add index (.const 1)) (.const s.NX)) (.const 0) (.const s.NY))
              (.getRows (.var s.Dy) (.mul index (.const s.NY))
                (.mul (.add index (.const 1)) (.const s.NY)))))
      else
        let setStagef := setStagef.addStatement (.assign (.index index) (.index index))
        setStagef.addStatement
          (.assign (.var qq)
            (.mul (.var s.Q2)
              (.getRows (.var s.Dy) (.mul index (.const s.NY))
                (.mul (.add index (.const 1)) (.const s.NY)))))
    let setStagef := setStagef.addLinebreak
    let setStagef :=
      if s.R2.isGiven == false then
        setStagef.addStatement
          (.assign (.var rr)
            (.mul
              (.getSubMatrix (.var s.R2) (.mul index (.const s.NU))
                (.mul (.add index (.const 1)) (.const s.NU)) (.const 0) (.const s.NY))
              (.getRows (.var s.Dy) (.mul index (.const s.NY))
                (.mul (.add index (.const 1)) (.const s.NY)))))
      else
        setStagef.addStatement
          (.assign (.var rr)
            (.mul (.var s.R2)
              (.getRows (.var s.Dy) (.mul index (.const s.NY))
                (.mul (.add index (.const 1)) (.const s.NY)))))
    -- Setup necessary QP variables
    let qpQ := ExportVariable.setup "qpQ" (s.N * s.NX) s.NX .REAL .ACADO_WORKSPACE
    let qpQf := ExportVariable.setup "qpQf" s.NX s.NX .REAL .ACADO_WORKSPACE
    let qpR := ExportVariable.setup "qpR" (s.N * s.NU) s.NU .REAL .ACADO_WORKSPACE
    let qpS := ExportVariable.setup "qpS" (s.N * s.NX) s.NU .REAL .ACADO_WORKSPACE
    let built : ExportGaussNewtonHpmpc :=
      { s with
        evaluateObjective := evaluateObjective, setObjQ1Q2 := setObjQ1Q2,
        setObjR1R2 := setObjR1R2, setObjQN1QN2 := setObjQN1QN2, setStagef := setStagef,
        qpQ := qpQ, qpQf := qpQf, qpR := qpR, qpS := qpS }
    -- ASSERT(Q1.isGiven() == true and QN1.isGiven() == true)
    if (s.Q1.isGiven == true && s.QN1.isGiven == true) = false then
      Result.assertionFailed built
    -- ASSERT(R1.isGiven() == true)
    else if (s.R1.isGiven == true) = false then
      Result.assertionFailed built
    else
      let initializeFcn := forLoop 0 s.N
        (fun blk (f : ExportFunction) => f.addStatement
          (.assign
            (.getSubMatrix (.var qpQ) (.const (blk * s.NX)) (.const ((blk + 1) * s.NX))
              (.const 0) (.const s.NX))
            (.var s.Q1)))
        s.initializeFcn
      let initializeFcn := initializeFcn.addStatement (.assign (.var qpQf) (.var s.QN1))
      let initializeFcn := forLoop 0 s.N
        (fun blk (f : ExportFunction) => f.addStatement
          (.assign
            (.getSubMatrix (.var qpR) (.const (blk * s.NU)) (.const ((blk + 1) * s.NU))
              (.const 0) (.const s.NU))
            (.var s.R1)))
        initializeFcn
      let initializeFcn := initializeFcn.addStatement
        (.assign (.var qpS) (.var (ExportVariable.ofMatrix (zeros (s.N * s.NX) s.NU))))
      Result.returned returnValue.SUCCESSFUL_RETURN { built with initializeFcn := initializeFcn }

/-! ## Constraint evaluation -/

/-- The function `ExportGaussNewtonHpmpc::setupConstraintsEvaluation` (source lines
465-504). The pair threaded through the two node loops is `(lbValues, ubValues)`. -/
def setupConstraintsEvaluation (s : ExportGaussNewtonHpmpc) :
    returnValue × ExportGaussNewtonHpmpc :=
  let evaluateConstraints := s.evaluateConstraints.setup "evaluateConstraints"
  let lbValues : DVector := []
  let ubValues : DVector := []
  let values : DVector × DVector := forLoop 0 s.N
    (fun node acc =>
      (acc.1 ++ s.uBounds.getLowerBounds node, acc.2 ++ s.uBounds.getUpperBounds node))
    (lbValues, ubValues)
  let values : DVector × DVector := forLoop 1 (s.N + 1)
    (fun node acc =>
      (acc.1 ++ s.xBounds.getLowerBounds node, acc.2 ++ s.xBounds.getUpperBounds node))
    values
  let lbValues := values.1
  let ubValues := values.2
  let qpLb := ExportVariable.setup "qpLb" (s.N * s.NU + s.N * s.NX) 1 .REAL .ACADO_WORKSPACE
  let qpUb := ExportVariable.setup "qpUb" (s.N * s.NU + s.N * s.NX) 1 .REAL .ACADO_WORKSPACE
  let evLbValues := ExportVariable.setupGiven "evLbValues" lbValues .STATIC_CONST_REAL .ACADO_LOCAL
  let evUbValues := ExportVariable.setupGiven "evUbValues" ubValues .STATIC_CONST_REAL .ACADO_LOCAL
  let evaluateConstraints := evaluateConstraints.addVariable evLbValues
  let evaluateConstraints := evaluateConstraints.addVariable evUbValues
  let evaluateConstraints := evaluateConstraints.addStatement
    (.assign (.getRows (.var qpLb) (.const 0) (.const (s.N * s.NU)))
      (.sub (.getRows (.var evLbValues) (.const 0) (.const (s.N * s.NU)))
        (.makeColVector (.var s.u))))
  let evaluateConstraints := evaluateConstraints.addStatement
    (.assign (.getRows (.var qpUb) (.const 0) (.const (s.N * s.NU)))
      (.sub (.getRows (.var evUbValues) (.const 0) (.const (s.N * s.NU)))
        (.makeColVector (.var s.u))))
  let evaluateConstraints := evaluateConstraints.addStatement
    (.assign
      (.getRows (.var qpLb) (.const (s.N * s.NU)) (.const (s.N * s.NU + s.N * s.NX)))
      (.sub
        (.getRows (.var evLbValues) (.const (s.N * s.NU)) (.const (s.N * s.NU + s.N * s.NX)))
        (.getRows (.makeColVector (.var s.x)) (.const s.NX) (.const (s.NX * (s.N + 1))))))
  let evaluateConstraints := evaluateConstraints.addStatement
    (.assign
      (.getRows (.var qpUb) (.const (s.N * s.NU)) (.const (s.N * s.NU + s.N * s.NX)))
      (.sub
        (.getRows (.var evUbValues) (.const (s.N * s.NU)) (.const (s.N * s.NU + s.N * s.NX)))
        (.getRows (.makeColVector (.var s.x)) (.const s.NX) (.const (s.NX * (s.N + 1))))))
  (returnValue.SUCCESSFUL_RETURN,
    { s with
      evaluateConstraints := evaluateConstraints, qpLb := qpLb, qpUb := qpUb,
      evLbValues := evLbValues, evUbValues := evUbValues })

/-! ## Variables, preparation and feedback -/

/-- The function `ExportGaussNewtonHpmpc::setupVariables` (source lines 506-515). -/
def setupVariables (s : ExportGaussNewtonHpmpc) : returnValue × ExportGaussNewtonHpmpc :=
  if s.initialStateFixed == true then
    let x0 := ExportVariable.setup "x0" s.NX 1 .REAL .ACADO_VARIABLES
    let x0 := x0.setDoc "Current state feedback vector."
    (returnValue.SUCCESSFUL_RETURN, { s with x0 := x0 })
  else
    (returnValue.SUCCESSFUL_RETURN, s)

/-- The function `ExportGaussNewtonHpmpc::setupMultiplicationRoutines`. -/
def setupMultiplicationRoutines (s : ExportGaussNewtonHpmpc) :
    returnValue × ExportGaussNewtonHpmpc :=
  (returnValue.SUCCESSFUL_RETURN, s)

/-- The function `ExportGaussNewtonHpmpc::setupEvaluation` (source lines 522-631). -/
def setupEvaluation (s : ExportGaussNewtonHpmpc) : returnValue × ExportGaussNewtonHpmpc :=
  -- Setup preparation phase
  let preparation := s.preparation.setup "preparationStep"
  let preparation := preparation.setDescription "Preparation step of the RTI scheme."
  let retSim := ExportVariable.setup "ret" 1 1 .INT .ACADO_LOCAL true
  let retSim := retSim.setDoc
    "Status of the integration module. =0: OK, otherwise the error code."
  let preparation := preparation.setReturnValue retSim (some false)
  let preparation := preparation.insert
    [.fullName retSim, .str " = ", .str s.modelSimulation.name, .str "();\n"]
  let preparation := preparation.addFunctionCall s.evaluateObjective
  let preparation := preparation.addFunctionCall s.evaluateConstraints
  -- Setup feedback phase
  let stateFeedback := ExportVariable.setup "stateFeedback" s.NX 1 .REAL .ACADO_LOCAL
  let returnValueFeedbackPhase := ExportVariable.setup "retVal" 1 1 .INT .ACADO_LOCAL true
  let returnValueFeedbackPhase :=
    returnValueFeedbackPhase.setDoc "Status code of the FORCES QP solver."
  let feedback := s.feedback.setup "feedbackStep"
  let feedback := feedback.setDescription "Feedback/estimation step of the RTI scheme."
  let feedback := feedback.setReturnValue returnValueFeedbackPhase
  let qpx := ExportVariable.setup "qpx" (s.NX * (s.N + 1)) 1 .REAL .ACADO_WORKSPACE
  let qpu := ExportVariable.setup "qpu" (s.NU * s.N) 1 .REAL .ACADO_WORKSPACE
  let qpq := ExportVariable.setup "qpq" (s.NX * s.N) 1 .REAL .ACADO_WORKSPACE
  let qpqf := ExportVariable.setup "qpqf" s.NX 1 .REAL .ACADO_WORKSPACE
  let qpr := ExportVariable.setup "qpr" (s.NU * s.N) 1 .REAL .ACADO_WORKSPACE
  let nIt := ExportVariable.setup "nIt" 1 1 .INT .ACADO_WORKSPACE
  -- State feedback
  let feedback := feedback.addStatement
    (.assign (.getRows (.var qpx) (.const 0) (.const s.NX))
      (.sub (.var s.x0) (.getTranspose (.getRow (.var s.x) (.const 0)))))
  -- Calculate objective residuals
  let feedback := feedback.addStatement (.subAssign (.var s.Dy) (.var s.y))
  let feedback := feedback.addLinebreak
  let feedback := feedback.addStatement (.subAssign (.var s.DyN) (.var s.yN))
  let feedback := feedback.addLinebreak
  let feedback := forLoop 0 s.N
    (fun i (f : ExportFunction) => f.addFunctionCall s.setStagef
      [.getAddress (.var qpq) (.const (i * s.NX)) (.const 0),
       .getAddress (.var qpr) (.const (i * s.NU)) (.const 0),
       .index (.const i)])
    feedback
  let feedback := feedback.addLinebreak
  let feedback := feedback.addStatement (.assign (.var qpqf) (.mul (.var s.QN2) (.var s.DyN)))
  let feedback := feedback.addLinebreak
  -- Call the solver
  let solverCall : List Piece :=
    [Piece.fullName returnValueFeedbackPhase, Piece.str " = ", Piece.str "acado_hpmpc_ip_wrapper(",
     Piece.toString s.N, Piece.str ", ", Piece.toString s.NX, Piece.str ", ", Piece.toString s.NU, Piece.str ", ",
     Piece.addressString s.evGx true, Piece.str ", ",
     Piece.addressString s.evGu true, Piece.str ", ",
     Piece.addressString s.d true, Piece.str ", ",
     Piece.addressString s.qpQ true, Piece.str ", ",
     Piece.addressString s.qpQf true, Piece.str ", ",
     Piece.addressString s.qpS true, Piece.str ", ",
     Piece.addressString s.qpR true, Piece.str ", ",
     Piece.addressString qpq true, Piece.str ", ",
     Piece.addressString qpqf true, Piece.str ", ",
     Piece.addressString qpr true, Piece.str ", ",
     Piece.addressString s.qpLb true, Piece.str ", ",
     Piece.addressString s.qpUb true, Piece.str ", ",
     Piece.addressString qpx true, Piece.str ", ",
     Piece.addressString qpu true, Piece.str ", ",
     Piece.addressString nIt true,
     Piece.str ");\n"]
  let feedback := feedback.insert solverCall
  -- Accumulate the solution, i.e. perform full Newton step
  let feedback := feedback.addStatement (.addAssign (.makeColVector (.var s.x)) (.var qpx))
  let feedback := feedback.addStatement (.addAssign (.makeColVector (.var s.u)) (.var qpu))
  -- TODO Setup evaluation of KKT
  let kkt := ExportVariable.setup "kkt" 1 1 .REAL .ACADO_LOCAL true
  let getKKT := s.getKKT.setup "getKKT"
  let getKKT := getKKT.setDescription
    "Get the KKT tolerance of the current iterate. Under development."
  let kkt := kkt.setDoc "0."
  let getKKT := getKKT.setReturnValue kkt
  let getKKT := getKKT.addStatement (.assign (.var kkt) (.lit 0))
  (returnValue.SUCCESSFUL_RETURN,
    { s with
      preparation := preparation, feedback := feedback, getKKT := getKKT,
      qpx := qpx, qpu := qpu, qpq := qpq, qpqf := qpqf, qpr := qpr, nIt := nIt })

/-! ## Code assembly and the generation pass -/

/-- The function `ExportGaussNewtonHpmpc::setupQPInterface` (source lines 633-642):
it requests the copy of the interface template into the export folder. -/
def setupQPInterface (s : ExportGaussNewtonHpmpc) : returnValue × ExportGaussNewtonHpmpc :=
  let folderName := s.CG_EXPORT_FOLDER_NAME
  let outFile := folderName ++ "/acado_hpmpc_interface.c"
  (returnValue.SUCCESSFUL_RETURN,
    { s with copiedTemplates := s.copiedTemplates ++ [("HPMPC_INTERFACE", outFile)] })

/-- The text of the forward declaration of the external solver (source line 122). -/
def forwardDeclaration : String :=
  "int acado_hpmpc_ip_wrapper(unsigned N, unsigned nx, unsigned nu, double* A, double* B, double* d, double* Q, double* Qf, double* S, double* R, double* q, double* qf, double* r, double* lb, double* ub, double* x, double* u, int* nIt);\n"

/-- The function `ExportGaussNewtonHpmpc::getCode` (source lines 116-165): the items
it appends to the code block, and the solver object after `setupQPInterface`. -/
def getCode (s : ExportGaussNewtonHpmpc) (code : List CodeItem) :
    returnValue × ExportGaussNewtonHpmpc × List CodeItem :=
  let s := (setupQPInterface s).2
  -- Forward declaration, same as in the template file.
  let code := code ++ [CodeItem.statement (.string [.str forwardDeclaration])]
  let code := code ++ [CodeItem.statement (.linebreak 2)]
  let code := code ++ [CodeItem.statement (.string [.str
    "/******************************************************************************/\n"])]
  let code := code ++ [CodeItem.statement (.string [.str
    "/*                                                                            */\n"])]
  let code := code ++ [CodeItem.statement (.string [.str
    "/* ACADO code generation                                                      */\n"])]
  let code := code ++ [CodeItem.statement (.string [.str
    "/*                                                                            */\n"])]
  let code := code ++ [CodeItem.statement (.string [.str
    "/******************************************************************************/\n"])]
  let code := code ++ [CodeItem.statement (.linebreak 2)]
  let useOMP := s.CG_USE_OPENMP
  let code := if useOMP ≠ 0 then code ++ [CodeItem.declaration s.state] else code
  let code := code ++ [CodeItem.function s.modelSimulation]
  let code := code ++ [CodeItem.function s.evaluateLSQ]
  let code := code ++ [CodeItem.function s.evaluateLSQEndTerm]
  let code := code ++ [CodeItem.function s.setObjQ1Q2]
  let code := code ++ [CodeItem.function s.setObjR1R2]
  let code := code ++ [CodeItem.function s.setObjQN1QN2]
  let code := code ++ [CodeItem.function s.setStageH]
  let code := code ++ [CodeItem.function s.setStagef]
  let code := code ++ [CodeItem.function s.evaluateObjective]
  let code := code ++ [CodeItem.function s.evaluateConstraints]
  let code := code ++ [CodeItem.function s.acc]
  let code := code ++ [CodeItem.function s.preparation]
  let code := code ++ [CodeItem.function s.feedback]
  let code := code ++ [CodeItem.function s.initializeFcn]
  let code := code ++ [CodeItem.function s.initializeNodes]
  let code := code ++ [CodeItem.function s.shiftStates]
  let code := code ++ [CodeItem.function s.shiftControls]
  let code := code ++ [CodeItem.function s.getKKT]
  let code := code ++ [CodeItem.function s.getObjective]
  (returnValue.SUCCESSFUL_RETURN, s, code)

/-- The steps of the generation pass that the NLP-solver base class implements;
their code is not part of the source file, so their effect on the solver object
is a parameter. -/
structure ExportNLPSolver where
  setupInitialization : ExportGaussNewtonHpmpc → ExportGaussNewtonHpmpc
  setupSimulation : ExportGaussNewtonHpmpc → ExportGaussNewtonHpmpc
  setupAuxiliaryFunctions : ExportGaussNewtonHpmpc → ExportGaussNewtonHpmpc

/-- The function `ExportGaussNewtonHpmpc::setup` (source lines 44-64). The value
a step returns is dropped, as in the source; a fatal failure or a failed
assertion inside `setupObjectiveEvaluation` ends the pass there, so that no later
step runs. -/
def setup (base : ExportNLPSolver) (s : ExportGaussNewtonHpmpc) : Result :=
  let s := base.setupInitialization s
  let s := (setupVariables s).2
  let s := base.setupSimulation s
  match setupObjectiveEvaluation s with
  | Result.assertionFailed s => Result.assertionFailed s
  | Result.fatal rv s => Result.fatal rv s
  | Result.returned _ s =>
    let s := (setupConstraintsEvaluation s).2
    let s := (setupEvaluation s).2
    let s := base.setupAuxiliaryFunctions s
    Result.returned returnValue.SUCCESSFUL_RETURN s

/-! ## Reading the generated statements

What a recorded statement means when the generated program runs. The operand
helpers (`getRows`, `makeColVector`, ...) live outside the source file, so their
meaning follows the specification's operand model: operands are stored row by
row, a slice is a window into its operand, and flattening reads the rows one
after the other. -/

/-- Run-time contents of the computed operands: entry `(i, j)` of each name. -/
abbrev Env := String → Nat → Nat → ℚ

/-- Value of an index expression under a binding of the named indices. -/
def ExportIndex.eval (ρ : String → Nat) : ExportIndex → Nat
  | ExportIndex.const value => value
  | ExportIndex.var name => ρ name
  | ExportIndex.add a b => a.eval ρ + b.eval ρ
  | ExportIndex.mul a b => a.eval ρ * b.eval ρ

/-- Modelled from the spec: the inferred shape (rows, columns) of an expression. -/
def Expr.dims (ρ : String → Nat) : Expr → Nat × Nat
  | Expr.var v => (v.nRows, v.nCols)
  | Expr.index _ => (1, 1)
  | Expr.lit _ => (1, 1)
  | Expr.getRows e rowIdx1 rowIdx2 => (rowIdx2.eval ρ - rowIdx1.eval ρ, (e.dims ρ).2)
  | Expr.getCols e colIdx1 colIdx2 => ((e.dims ρ).1, colIdx2.eval ρ - colIdx1.eval ρ)
  | Expr.getRow e _ => (1, (e.dims ρ).2)
  | Expr.getSubMatrix _ rowIdx1 rowIdx2 colIdx1 colIdx2 =>
      (rowIdx2.eval ρ - rowIdx1.eval ρ, colIdx2.eval ρ - colIdx1.eval ρ)
  | Expr.getTranspose e => ((e.dims ρ).2, (e.dims ρ).1)
  | Expr.makeColVector e => ((e.dims ρ).1 * (e.dims ρ).2, 1)
  | Expr.getAddress e _ _ => e.dims ρ
  | Expr.add a _ => a.dims ρ
  | Expr.sub a _ => a.dims ρ
  | Expr.mul a b => ((a.dims ρ).1, (b.dims ρ).2)
  | Expr.tmul a b => ((a.dims ρ).2, (b.dims ρ).2)

/-- Modelled from the spec: the entries of an expression. A given operand reads
its constant payload, a computed operand reads the run-time contents. -/
def Expr.eval (ρ : String → Nat) (env : Env) : Expr → Nat → Nat → ℚ
  | Expr.var v =>
      match v.data with
      | some m => fun i j => m.entry i j
      | none => env v.name
  | Expr.index idx => fun _ _ => (idx.eval ρ : ℚ)
  | Expr.lit c => fun _ _ => c
  | Expr.getRows e rowIdx1 _ => fun i j => e.eval ρ env (rowIdx1.eval ρ + i) j
  | Expr.getCols e colIdx1 _ => fun i j => e.eval ρ env i (colIdx1.eval ρ + j)
  | Expr.getRow e idx => fun i j => e.eval ρ env (idx.eval ρ + i) j
  | Expr.getSubMatrix e rowIdx1 _ colIdx1 _ =>
      fun i j => e.eval ρ env (rowIdx1.eval ρ + i) (colIdx1.eval ρ + j)
  | Expr.getTranspose e => fun i j => e.eval ρ env j i
  | Expr.makeColVector e =>
      fun i _ => e.eval ρ env (i / (e.dims ρ).2) (i % (e.dims ρ).2)
  | Expr.getAddress e rowIdx colIdx =>
      fun i j => e.eval ρ env (rowIdx.eval ρ + i) (colIdx.eval ρ + j)
  | Expr.add a b => fun i j => a.eval ρ env i j + b.eval ρ env i j
  | Expr.sub a b => fun i j => a.eval ρ env i j - b.eval ρ env i j
  | Expr.mul a b =>
      fun i j => ((List.range (a.dims ρ).2).map fun k => a.eval ρ env i k * b.eval ρ env k j).sum
  | Expr.tmul a b =>
      fun i j => ((List.range (a.dims ρ).1).map fun k => a.eval ρ env k i * b.eval ρ env k j).sum

/-- The operand a left-hand side expression is a window into. -/
def Expr.base : Expr → Option ExportVariable
  | Expr.var v => some v
  | Expr.getRows e _ _ => e.base
  | Expr.getCols e _ _ => e.base
  | Expr.getRow e _ => e.base
  | Expr.getSubMatrix e _ _ _ _ => e.base
  | Expr.getTranspose e => e.base
  | Expr.makeColVector e => e.base
  | Expr.getAddress e _ _ => e.base
  | _ => none

/-- Modelled from the spec: for a left-hand side expression, the entry of the
expression that is stored in cell `(r, c)` of its operand, if the window covers
that cell. -/
def Expr.locate (ρ : String → Nat) : Expr → Nat → Nat → Option (Nat × Nat)
  | Expr.var v => fun r c => if r < v.nRows ∧ c < v.nCols then some (r, c) else none
  | Expr.getRows e rowIdx1 rowIdx2 => fun r c =>
      (e.locate ρ r c).bind fun p =>
        if rowIdx1.eval ρ ≤ p.1 ∧ p.1 < rowIdx2.eval ρ then some (p.1 - rowIdx1.eval ρ, p.2)
        else none
  | Expr.getCols e colIdx1 colIdx2 => fun r c =>
      (e.locate ρ r c).bind fun p =>
        if colIdx1.eval ρ ≤ p.2 ∧ p.2 < colIdx2.eval ρ then some (p.1, p.2 - colIdx1.eval ρ)
        else none
  | Expr.getRow e idx => fun r c =>
      (e.locate ρ r c).bind fun p => if p.1 = idx.eval ρ then some (0, p.2) else none
  | Expr.getSubMatrix e rowIdx1 rowIdx2 colIdx1 colIdx2 => fun r c =>
      (e.locate ρ r c).bind fun p =>
        if rowIdx1.eval ρ ≤ p.1 ∧ p.1 < rowIdx2.eval ρ ∧
            colIdx1.eval ρ ≤ p.2 ∧ p.2 < colIdx2.eval ρ then
          some (p.1 - rowIdx1.eval ρ, p.2 - colIdx1.eval ρ)
        else none
  | Expr.getTranspose e => fun r c => (e.locate ρ r c).map fun p => (p.2, p.1)
  | Expr.makeColVector e => fun r c =>
      (e.locate ρ r c).map fun p => (p.1 * (e.dims ρ).2 + p.2, 0)
  | _ => fun _ _ => none

/-- Stores `value i j` through the window `lhs`: the cells of the base operand the
window covers get the new entries, everything else keeps its contents. -/
def store (ρ : String → Nat) (env : Env) (lhs : Expr) (value : Nat → Nat → ℚ) : Option Env :=
  match lhs.base with
  | none => none
  | some v =>
      some fun name r c =>
        if name = v.name then
          match lhs.locate ρ r c with
          | some p => value p.1 p.2
          | none => env name r c
        else env name r c

/-- Modelled from the spec: the effect of one statement on the run-time contents.
Assignments (plain, `+=`, `-=`) are interpreted; calls and raw text belong to
code outside this file and have no reading here. -/
def ExportStatement.exec (ρ : String → Nat) (env : Env) : ExportStatement → Option Env
  | ExportStatement.assign lhs rhs => store ρ env lhs (rhs.eval ρ env)
  | ExportStatement.addAssign lhs rhs =>
      store ρ env lhs fun i j => lhs.eval ρ env i j + rhs.eval ρ env i j
  | ExportStatement.subAssign lhs rhs =>
      store ρ env lhs fun i j => lhs.eval ρ env i j - rhs.eval ρ env i j
  | ExportStatement.linebreak _ => some env
  | ExportStatement.functionCall _ _ => none
  | ExportStatement.string _ => none

/-- Runs the statements of a block in emission order. -/
def execStatements (ρ : String → Nat) : List ExportStatement → Env → Option Env
  | [], env => some env
  | st :: rest, env => (st.exec ρ env).bind (execStatements ρ rest)

/-- The plain statements of a function body, when it has no loop. -/
def plainStatements : List BlockItem → Option (List ExportStatement)
  | [] => some []
  | BlockItem.statement st :: rest => (plainStatements rest).map fun l => st :: l
  | BlockItem.forLoop _ :: _ => none

/-- The items a setup step has appended to a function body. -/
def addedItems (before after : ExportFunction) : List BlockItem :=
  after.statements.drop before.statements.length

/-- The operand a statement may write: the base of an assignment's left-hand
side, every operand handed to a call, every operand named in raw text. -/
def ExportStatement.writes (name : String) : ExportStatement → Bool
  | ExportStatement.assign lhs _ => (lhs.base.map fun v => v.name) == some name
  | ExportStatement.addAssign lhs _ => (lhs.base.map fun v => v.name) == some name
  | ExportStatement.subAssign lhs _ => (lhs.base.map fun v => v.name) == some name
  | ExportStatement.functionCall _ args =>
      args.any fun a => (a.base.map fun v => v.name) == some name
  | ExportStatement.string pieces =>
      pieces.any fun p =>
        match p with
        | Piece.fullName v => v.name == name
        | Piece.addressString v _ => v.name == name
        | _ => false
  | ExportStatement.linebreak _ => false

/-- The operand an item of a function body may write. -/
def BlockItem.writes (name : String) : BlockItem → Bool
  | BlockItem.statement st => st.writes name
  | BlockItem.forLoop loop => loop.statements.any fun st => st.writes name

/-- True for the layout-only items (line breaks). -/
def BlockItem.isLinebreak : BlockItem → Bool
  | BlockItem.statement (ExportStatement.linebreak _) => true
  | _ => false

/-- The items of a function body without the line breaks. -/
def codeItems (items : List BlockItem) : List BlockItem :=
  items.filter fun it => !it.isLinebreak

/-! ## Reading raw calls and the forward declaration -/

/-- The raw-text statements among the items of a function body. -/
def rawStatements : List BlockItem → List (List Piece)
  | [] => []
  | BlockItem.statement (ExportStatement.string pieces) :: rest => pieces :: rawStatements rest
  | _ :: rest => rawStatements rest

/-- True for the literal text pieces of a raw statement. -/
def Piece.isText : Piece → Bool
  | Piece.str _ => true
  | _ => false

/-- The arguments of a raw call `ret = symbol(a1, a2, ...);`: what is left of its
pieces after the assignment head `ret`, ` = `, `symbol(` once the literal
separators are dropped. -/
def callArguments (pieces : List Piece) : List Piece :=
  (pieces.drop 3).filter fun p => !p.isText

/-- Splits a text at every occurrence of a separator character. -/
def splitOnChar (sep : Char) : List Char → List (List Char)
  | [] => [[]]
  | c :: cs =>
      if c = sep then [] :: splitOnChar sep cs
      else
        match splitOnChar sep cs with
        | [] => [[c]]
        | w :: ws => (c :: w) :: ws

/-- The text between the first opening and the next closing parenthesis. -/
def betweenParens (cs : List Char) : List Char :=
  ((cs.dropWhile fun c => c != '(').drop 1).takeWhile fun c => c != ')'

/-- The type and the name of one C parameter such as `double* Qf`. -/
def parameterOf (cs : List Char) : String × String :=
  let ws := (splitOnChar ' ' cs).filter fun w => !w.isEmpty
  (String.mk (ws.headD []), String.mk (ws.getLastD []))

/-- The parameter list (type, name) of a C function declaration. -/
def declaredParameters (decl : String) : List (String × String) :=
  (splitOnChar ',' (betweenParens decl.toList)).map parameterOf

/-- The symbol a C function declaration declares: the last word before the
opening parenthesis. -/
def declaredSymbol (decl : String) : String :=
  String.mk ((splitOnChar ' ' (decl.toList.takeWhile fun c => c != '(')).getLastD [])

/-- An argument of a raw call fits a declared C type when a literal count meets
`unsigned` and an operand address meets a pointer type. -/
def Piece.fits (p : Piece) (cType : String) : Bool :=
  match p with
  | Piece.toString _ => cType == "unsigned"
  | Piece.addressString _ _ => cType.toList.getLast? == some '*'
  | _ => false

/-- True for the function definitions among the items of the code block. -/
def CodeItem.isFunction : CodeItem → Bool
  | CodeItem.function _ => true
  | _ => false

/-- The raw call statement that `setupEvaluation` adds to the feedback function. -/
def feedbackSolverCall (s : ExportGaussNewtonHpmpc) : List Piece :=
  (rawStatements (addedItems s.feedback (setupEvaluation s).2.feedback)).headD []

/-! ## Block copies -/

/-- The row range a block-copy statement of the Hessian setup writes, and the
operands it writes to and reads from. -/
def blockCopy : BlockItem → Option (ExportVariable × (Nat × Nat) × ExportVariable)
  | BlockItem.statement
      (ExportStatement.assign
        (Expr.getSubMatrix (Expr.var dst) (ExportIndex.const r1) (ExportIndex.const r2) _ _)
        (Expr.var src)) => some (dst, (r1, r2), src)
  | _ => none

/-- Modelled from the spec: the shape law on the arithmetic inside an expression:
the operands of every sum and difference have equal shapes, those of every
product have matching inner dimensions. -/
def Expr.operandsAgree (ρ : String → Nat) : Expr → Bool
  | Expr.add a b => a.operandsAgree ρ && b.operandsAgree ρ && decide (a.dims ρ = b.dims ρ)
  | Expr.sub a b => a.operandsAgree ρ && b.operandsAgree ρ && decide (a.dims ρ = b.dims ρ)
  | Expr.mul a b =>
      a.operandsAgree ρ && b.operandsAgree ρ && decide ((a.dims ρ).2 = (b.dims ρ).1)
  | Expr.tmul a b =>
      a.operandsAgree ρ && b.operandsAgree ρ && decide ((a.dims ρ).1 = (b.dims ρ).1)
  | Expr.getRows e _ _ => e.operandsAgree ρ
  | Expr.getCols e _ _ => e.operandsAgree ρ
  | Expr.getRow e _ => e.operandsAgree ρ
  | Expr.getSubMatrix e _ _ _ _ => e.operandsAgree ρ
  | Expr.getTranspose e => e.operandsAgree ρ
  | Expr.makeColVector e => e.operandsAgree ρ
  | Expr.getAddress e _ _ => e.operandsAgree ρ
  | _ => true

/-- The run-time contents after the rows `[a, b)` of operand `v` have been
overwritten with the entries `value (r - a) c`. -/
def storeRows (env : Env) (v : ExportVariable) (a b : Nat) (value : Nat → Nat → ℚ) : Env :=
  fun name r c =>
    if name = v.name ∧ r < v.nRows ∧ c < v.nCols ∧ a ≤ r ∧ r < b then value (r - a) c
    else env name r c

/-- Modelled from the spec: a Hessian seed with `scalar × identity` folded in,
the sum of the seed and of the identity of its size scaled by the scalar. -/
def regularized (seed : DMatrix) (scalar : ℚ) : DMatrix :=
  List.zipWith (fun rowA rowB => List.zipWith (fun a b => a + b) rowA rowB) seed
    ((eye seed.length).scale scalar)

/-! ## Reading the stage loop -/

/-- The loops among the items of a function body, in emission order. -/
def loopsOf : List BlockItem → List ExportForLoop
  | [] => []
  | BlockItem.forLoop loop :: rest => loop :: loopsOf rest
  | BlockItem.statement _ :: rest => loopsOf rest

/-- The argument lists of the calls of the function `name` among the statements
of a block, in emission order. -/
def callsOf (name : String) : List ExportStatement → List (List Expr)
  | [] => []
  | ExportStatement.functionCall callee args :: rest =>
      if callee = name then args :: callsOf name rest else callsOf name rest
  | _ :: rest => callsOf name rest

/-- The loops that `setupObjectiveEvaluation` adds to `evaluateObjective`. -/
def stageLoops (s : ExportGaussNewtonHpmpc) : List ExportForLoop :=
  loopsOf (addedItems s.evaluateObjective (setupObjectiveEvaluation s).solver.evaluateObjective)

/-- The calls of the function `name` in the bodies of the loops that
`setupObjectiveEvaluation` adds to `evaluateObjective`, loop by loop. -/
def stageLoopCalls (s : ExportGaussNewtonHpmpc) (name : String) : List (List (List Expr)) :=
  (stageLoops s).map fun loop => callsOf name loop.statements

/-! ## The end-to-end scenario -/

/-- The problem of the end-to-end scenario: `N = 2`, `NX = 2`, `NU = 1`, `NY = 2`,
all weighting matrices given, regularization `1/2`, zero cross term, box bounds
of plus and minus one on state and control. -/
def scenario : ExportGaussNewtonHpmpc :=
  { N := 2, NX := 2, NU := 1, NY := 2, NYN := 2, NOD := 0,
    levenbergMarquardt := 1 / 2,
    uBounds := { lowerBounds := [[-1], [-1]], upperBounds := [[1], [1]] },
    xBounds := { lowerBounds := [[-1, -1], [-1, -1], [-1, -1]],
                 upperBounds := [[1, 1], [1, 1], [1, 1]] },
    x := ExportVariable.setup "x" 3 2 .REAL .ACADO_VARIABLES,
    u := ExportVariable.setup "u" 2 1 .REAL .ACADO_VARIABLES,
    od := ExportVariable.setup "od" 3 0 .REAL .ACADO_VARIABLES,
    y := ExportVariable.setup "y" 4 1 .REAL .ACADO_VARIABLES,
    yN := ExportVariable.setup "yN" 2 1 .REAL .ACADO_VARIABLES,
    Dy := ExportVariable.setup "Dy" 4 1 .REAL .ACADO_WORKSPACE,
    DyN := ExportVariable.setup "DyN" 2 1 .REAL .ACADO_WORKSPACE,
    state := ExportVariable.setup "state" 1 8 .REAL .ACADO_WORKSPACE,
    objValueIn := ExportVariable.setup "objValueIn" 1 3 .REAL .ACADO_WORKSPACE,
    objValueOut := ExportVariable.setup "objValueOut" 1 2 .REAL .ACADO_WORKSPACE,
    objS := { name := "W", nRows := 2, nCols := 2, data := some [[1, 0], [0, 1]] },
    objSEndTerm := { name := "WN", nRows := 2, nCols := 2, data := some [[1, 0], [0, 1]] },
    objEvFx := { name := "evFx", nRows := 2, nCols := 2, data := some [[1, 0], [0, 1]] },
    objEvFu := { name := "evFu", nRows := 2, nCols := 1, data := some [[0], [1]] },
    objEvFxEnd := { name := "evFxEnd", nRows := 2, nCols := 2, data := some [[1, 0], [0, 1]] },
    Q1 := { name := "Q1", nRows := 2, nCols := 2, data := some [[1, 0], [0, 1]] },
    Q2 := { name := "Q2", nRows := 2, nCols := 2, data := some [[1, 0], [0, 1]] },
    R1 := { name := "R1", nRows := 1, nCols := 1, data := some [[1]] },
    R2 := { name := "R2", nRows := 1, nCols := 2, data := some [[0, 1]] },
    S1 := { name := "S1", nRows := 2, nCols := 1, data := some [[0], [0]] },
    QN1 := { name := "QN1", nRows := 2, nCols := 2, data := some [[1, 0], [0, 1]] },
    QN2 := { name := "QN2", nRows := 2, nCols := 2, data := some [[1, 0], [0, 1]] },
    evGx := ExportVariable.setup "evGx" 4 2 .REAL .ACADO_WORKSPACE,
    evGu := ExportVariable.setup "evGu" 4 1 .REAL .ACADO_WORKSPACE,
    d := ExportVariable.setup "d" 4 1 .REAL .ACADO_WORKSPACE,
    modelSimulation := { name := "modelSimulation" },
    evaluateLSQ := { name := "evaluateLSQ" },
    evaluateLSQEndTerm := { name := "evaluateLSQEndTerm" },
    initializeFcn := { name := "initializeSolver" } }

/-- The scenario with a cross weighting that is not given. -/
def scenarioCrossNotGiven : ExportGaussNewtonHpmpc :=
  { scenario with S1 := ExportVariable.setup "S1" 2 1 .REAL .ACADO_WORKSPACE }

/-- The scenario with a given, nonzero cross weighting. -/
def scenarioCrossNonzero : ExportGaussNewtonHpmpc :=
  { scenario with S1 := { name := "S1", nRows := 2, nCols := 1, data := some [[0], [1]] } }

/-- The scenario with a state weighting block that is not given. -/
def scenarioQ1NotGiven : ExportGaussNewtonHpmpc :=
  { scenario with Q1 := ExportVariable.setup "Q1" 4 2 .REAL .ACADO_WORKSPACE }

/-- Base-class steps that leave the solver object as it is. -/
def idleBase : ExportNLPSolver :=
  { setupInitialization := id, setupSimulation := id, setupAuxiliaryFunctions := id }


/-- The scenario with computed Hessian blocks: `Q1`, `Q2`, `R1`, `R2` are not
given; the weighting is per-stage variable (`objS` then stacks `N` blocks and is
not given) or shared, and the Jacobians `Fx`, `Fu` are given or not. -/
def scenarioComputed (variableObjS : Int) (jacobiansGiven : Bool) : ExportGaussNewtonHpmpc :=
  { scenario with
    CG_USE_VARIABLE_WEIGHTING_MATRIX := variableObjS,
    objS :=
      if variableObjS = YES then ExportVariable.setup "W" 4 2 .REAL .ACADO_VARIABLES
      else scenario.objS,
    objEvFx :=
      if jacobiansGiven then scenario.objEvFx
      else ExportVariable.setup "evFx" 2 2 .REAL .ACADO_WORKSPACE,
    objEvFu :=
      if jacobiansGiven then scenario.objEvFu
      else ExportVariable.setup "evFu" 2 1 .REAL .ACADO_WORKSPACE,
    Q1 := ExportVariable.setup "Q1" 4 2 .REAL .ACADO_WORKSPACE,
    Q2 := ExportVariable.setup "Q2" 4 2 .REAL .ACADO_WORKSPACE,
    R1 := ExportVariable.setup "R1" 2 1 .REAL .ACADO_WORKSPACE,
    R2 := ExportVariable.setup "R2" 2 2 .REAL .ACADO_WORKSPACE }

/-! ## Facts shared by the proofs -/

theorem forLoop_zero_eq_foldl {σ : Type} (n : Nat) (body : Nat → σ → σ) (init : σ) :
    forLoop 0 n body init = (List.range n).foldl (fun acc i => body i acc) init := by
  simp [forLoop, List.range_eq_range']

theorem setupObjectiveEvaluation_of_cross (s : ExportGaussNewtonHpmpc)
    (h : (s.S1.isGiven == false || s.S1.getGivenMatrix.isZero == false) = true) :
    setupObjectiveEvaluation s =
      Result.fatal returnValue.RET_INVALID_ARGUMENTS
        { s with evaluateObjective := s.evaluateObjective.setup "evaluateObjective" } := by
  unfold setupObjectiveEvaluation
  simp only [h, if_true, ACADOFATALTEXT]

theorem value_ne_invalid_of_shape (c a b : Prop) [Decidable c] [Decidable a] [Decidable b]
    (rv : returnValue) (w x y z : ExportGaussNewtonHpmpc) (hc : ¬ c) :
    (if c then Result.fatal rv w
      else if a then Result.assertionFailed x
      else if b then Result.assertionFailed y
      else Result.returned returnValue.SUCCESSFUL_RETURN z).value ≠
        some returnValue.RET_INVALID_ARGUMENTS := by
  rw [if_neg hc]
  split_ifs <;> simp [Result.value]

theorem not_fatal_of_shape (c a b : Prop) [Decidable c] [Decidable a] [Decidable b]
    (rv : returnValue) (w x y z : ExportGaussNewtonHpmpc) (hc : ¬ c)
    (rv' : returnValue) (t : ExportGaussNewtonHpmpc) :
    (if c then Result.fatal rv w
      else if a then Result.assertionFailed x
      else if b then Result.assertionFailed y
      else Result.returned returnValue.SUCCESSFUL_RETURN z) ≠ Result.fatal rv' t := by
  rw [if_neg hc]
  split_ifs <;> exact fun h => Result.noConfusion h

theorem setupObjectiveEvaluation_not_fatal (s : ExportGaussNewtonHpmpc)
    (h : (s.S1.isGiven == false || s.S1.getGivenMatrix.isZero == false) = false)
    (rv : returnValue) (t : ExportGaussNewtonHpmpc) :
    setupObjectiveEvaluation s ≠ Result.fatal rv t :=
  not_fatal_of_shape _ _ _ _ _ _ _ _ (by rw [h]; decide) rv t

theorem setupObjectiveEvaluation_value_of_no_cross (s : ExportGaussNewtonHpmpc)
    (h : (s.S1.isGiven == false || s.S1.getGivenMatrix.isZero == false) = false) :
    (setupObjectiveEvaluation s).value ≠ some returnValue.RET_INVALID_ARGUMENTS :=
  value_ne_invalid_of_shape _ _ _ _ _ _ _ _ (by rw [h]; decide)

theorem forLoop_addStatement (n : Nat) (g : Nat → ExportStatement) (f : ExportFunction) :
    forLoop 0 n (fun i (f : ExportFunction) => f.addStatement (g i)) f =
      { f with
        statements := f.statements ++ (List.range n).map fun i => BlockItem.statement (g i) } := by
  rw [forLoop_zero_eq_foldl]
  induction n with
  | zero => simp
  | succ n ih =>
    rw [List.range_succ, List.foldl_append, ih]
    simp [ExportFunction.addStatement, List.append_assoc]

theorem rawStatements_append (l₁ l₂ : List BlockItem) :
    rawStatements (l₁ ++ l₂) = rawStatements l₁ ++ rawStatements l₂ := by
  induction l₁ with
  | nil => rfl
  | cons it rest ih =>
    cases it with
    | forLoop l => simpa [rawStatements] using ih
    | statement st => cases st <;> simpa [rawStatements] using ih

theorem rawStatements_map_functionCall {α : Type} (l : List α) (name : α → String)
    (args : α → List Expr) :
    rawStatements
      (l.map fun a => BlockItem.statement (ExportStatement.functionCall (name a) (args a))) = [] := by
  induction l with
  | nil => rfl
  | cons a rest ih => simpa [rawStatements] using ih

theorem addedItems_append (before after : ExportFunction) (items : List BlockItem)
    (h : after.statements = before.statements ++ items) :
    addedItems before after = items := by
  simp [addedItems, h]

theorem setupEvaluation_feedback_statements (s : ExportGaussNewtonHpmpc) :
    (setupEvaluation s).2.feedback.statements =
      s.feedback.statements ++
        ([BlockItem.statement
            (.assign (.getRows (.var (setupEvaluation s).2.qpx) (.const 0) (.const s.NX))
              (.sub (.var s.x0) (.getTranspose (.getRow (.var s.x) (.const 0))))),
          BlockItem.statement (.subAssign (.var s.Dy) (.var s.y)),
          BlockItem.statement (.linebreak 1),
          BlockItem.statement (.subAssign (.var s.DyN) (.var s.yN)),
          BlockItem.statement (.linebreak 1)] ++
        ((List.range s.N).map fun i =>
          BlockItem.statement
            (.functionCall s.setStagef.name
              [.getAddress (.var (setupEvaluation s).2.qpq) (.const (i * s.NX)) (.const 0),
               .getAddress (.var (setupEvaluation s).2.qpr) (.const (i * s.NU)) (.const 0),
               .index (.const i)])) ++
        [BlockItem.statement (.linebreak 1),
          BlockItem.statement
            (.assign (.var (setupEvaluation s).2.qpqf) (.mul (.var s.QN2) (.var s.DyN))),
          BlockItem.statement (.linebreak 1),
          BlockItem.statement (.string (feedbackSolverCall s)),
          BlockItem.statement
            (.addAssign (.makeColVector (.var s.x)) (.var (setupEvaluation s).2.qpx)),
          BlockItem.statement
            (.addAssign (.makeColVector (.var s.u)) (.var (setupEvaluation s).2.qpu))]) := by
  simp only [feedbackSolverCall, addedItems, setupEvaluation, ExportFunction.addFunctionCall,
    forLoop_addStatement]
  simp [ExportFunction.addStatement, ExportFunction.addLinebreak,
    ExportFunction.insert, ExportFunction.setup, ExportFunction.setDescription,
    ExportFunction.setReturnValue, rawStatements_append, rawStatements,
    rawStatements_map_functionCall]

theorem feedbackSolverCall_eq (s : ExportGaussNewtonHpmpc) :
    feedbackSolverCall s =
      [Piece.fullName
          ((ExportVariable.setup "retVal" 1 1 .INT .ACADO_LOCAL true).setDoc
            "Status code of the FORCES QP solver."),
        Piece.str " = ", Piece.str "acado_hpmpc_ip_wrapper(",
        Piece.toString s.N, Piece.str ", ", Piece.toString s.NX, Piece.str ", ",
        Piece.toString s.NU, Piece.str ", ",
        Piece.addressString s.evGx true, Piece.str ", ",
        Piece.addressString s.evGu true, Piece.str ", ",
        Piece.addressString s.d true, Piece.str ", ",
        Piece.addressString s.qpQ true, Piece.str ", ",
        Piece.addressString s.qpQf true, Piece.str ", ",
        Piece.addressString s.qpS true, Piece.str ", ",
        Piece.addressString s.qpR true, Piece.str ", ",
        Piece.addressString (setupEvaluation s).2.qpq true, Piece.str ", ",
        Piece.addressString (setupEvaluation s).2.qpqf true, Piece.str ", ",
        Piece.addressString (setupEvaluation s).2.qpr true, Piece.str ", ",
        Piece.addressString s.qpLb true, Piece.str ", ",
        Piece.addressString s.qpUb true, Piece.str ", ",
        Piece.addressString (setupEvaluation s).2.qpx true, Piece.str ", ",
        Piece.addressString (setupEvaluation s).2.qpu true, Piece.str ", ",
        Piece.addressString (setupEvaluation s).2.nIt true,
        Piece.str ");\n"] := by
  simp only [feedbackSolverCall, addedItems, setupEvaluation, ExportFunction.addFunctionCall,
    forLoop_addStatement]
  simp [ExportFunction.addStatement, ExportFunction.addLinebreak,
    ExportFunction.insert, ExportFunction.setup, ExportFunction.setDescription,
    ExportFunction.setReturnValue, rawStatements_append, rawStatements,
    rawStatements_map_functionCall]

theorem declaredParameters_forwardDeclaration :
    declaredParameters forwardDeclaration =
      [("unsigned", "N"), ("unsigned", "nx"), ("unsigned", "nu"), ("double*", "A"),
       ("double*", "B"), ("double*", "d"), ("double*", "Q"), ("double*", "Qf"),
       ("double*", "S"), ("double*", "R"), ("double*", "q"), ("double*", "qf"),
       ("double*", "r"), ("double*", "lb"), ("double*", "ub"), ("double*", "x"),
       ("double*", "u"), ("int*", "nIt")] := by
  decide

theorem foldl_append_pair (nodes : List Nat) (f g : Nat → DVector) (acc : DVector × DVector) :
    nodes.foldl (fun (acc : DVector × DVector) node => (acc.1 ++ f node, acc.2 ++ g node)) acc =
      (acc.1 ++ (nodes.map f).flatten, acc.2 ++ (nodes.map g).flatten) := by
  induction nodes generalizing acc with
  | nil => simp
  | cons node rest ih => simp [ih, List.append_assoc]

theorem length_flatten_of_uniform (nodes : List Nat) (f : Nat → DVector) (width : Nat)
    (h : ∀ node ∈ nodes, (f node).length = width) :
    ((nodes.map f).flatten).length = nodes.length * width := by
  induction nodes with
  | nil => simp
  | cons node rest ih =>
    have h1 : (f node).length = width := h node (List.mem_cons_self _ _)
    have h2 := ih fun n hn => h n (List.mem_cons_of_mem _ hn)
    simp only [List.map_cons, List.flatten_cons, List.length_append, List.length_cons, h1, h2]
    ring

theorem setupConstraintsEvaluation_values (s : ExportGaussNewtonHpmpc) :
    (setupConstraintsEvaluation s).2.evLbValues =
        ExportVariable.setupGiven "evLbValues"
          (((List.range s.N).map s.uBounds.getLowerBounds).flatten ++
            ((List.range' 1 s.N).map s.xBounds.getLowerBounds).flatten)
          .STATIC_CONST_REAL .ACADO_LOCAL ∧
      (setupConstraintsEvaluation s).2.evUbValues =
        ExportVariable.setupGiven "evUbValues"
          (((List.range s.N).map s.uBounds.getUpperBounds).flatten ++
            ((List.range' 1 s.N).map s.xBounds.getUpperBounds).flatten)
          .STATIC_CONST_REAL .ACADO_LOCAL := by
  simp [setupConstraintsEvaluation, forLoop, foldl_append_pair, List.range_eq_range']

theorem setupConstraintsEvaluation_statements (s : ExportGaussNewtonHpmpc) :
    (setupConstraintsEvaluation s).2.evaluateConstraints.statements =
      s.evaluateConstraints.statements ++
        [BlockItem.statement
          (.assign
            (.getRows (.var (setupConstraintsEvaluation s).2.qpLb) (.const 0)
              (.const (s.N * s.NU)))
            (.sub
              (.getRows (.var (setupConstraintsEvaluation s).2.evLbValues) (.const 0)
                (.const (s.N * s.NU)))
              (.makeColVector (.var s.u)))),
         BlockItem.statement
          (.assign
            (.getRows (.var (setupConstraintsEvaluation s).2.qpUb) (.const 0)
              (.const (s.N * s.NU)))
            (.sub
              (.getRows (.var (setupConstraintsEvaluation s).2.evUbValues) (.const 0)
                (.const (s.N * s.NU)))
              (.makeColVector (.var s.u)))),
         BlockItem.statement
          (.assign
            (.getRows (.var (setupConstraintsEvaluation s).2.qpLb) (.const (s.N * s.NU))
              (.const (s.N * s.NU + s.N * s.NX)))
            (.sub
              (.getRows (.var (setupConstraintsEvaluation s).2.evLbValues)
                (.const (s.N * s.NU)) (.const (s.N * s.NU + s.N * s.NX)))
              (.getRows (.makeColVector (.var s.x)) (.const s.NX)
                (.const (s.NX * (s.N + 1)))))),
         BlockItem.statement
          (.assign
            (.getRows (.var (setupConstraintsEvaluation s).2.qpUb) (.const (s.N * s.NU))
              (.const (s.N * s.NU + s.N * s.NX)))
            (.sub
              (.getRows (.var (setupConstraintsEvaluation s).2.evUbValues)
                (.const (s.N * s.NU)) (.const (s.N * s.NU + s.N * s.NX)))
              (.getRows (.makeColVector (.var s.x)) (.const s.NX)
                (.const (s.NX * (s.N + 1))))))] := by
  simp [setupConstraintsEvaluation, ExportFunction.addStatement, ExportFunction.addVariable,
    ExportFunction.setup]

theorem exec_assign_rows (ρ : String → Nat) (env : Env) (v : ExportVariable) (a b : Nat)
    (rhs : Expr) :
    (ExportStatement.assign (.getRows (.var v) (.const a) (.const b)) rhs).exec ρ env =
      some (storeRows env v a b (rhs.eval ρ env)) := by
  simp only [ExportStatement.exec, store, Expr.base, Expr.locate, ExportIndex.eval, storeRows]
  congr 1
  funext name r c
  by_cases hname : name = v.name
  · by_cases hr : r < v.nRows ∧ c < v.nCols
    · by_cases hab : a ≤ r ∧ r < b
      · simp [storeRows, hname, hr, hab]
      · have hcond : ¬ (r < v.nRows ∧ c < v.nCols ∧ a ≤ r ∧ r < b) :=
          fun h => hab ⟨h.2.2.1, h.2.2.2⟩
        simp [storeRows, hname, hr, hab, hcond]
    · have hcond : ¬ (r < v.nRows ∧ c < v.nCols ∧ a ≤ r ∧ r < b) :=
        fun h => hr ⟨h.1, h.2.1⟩
      simp [storeRows, hname, hr, hcond]
  · simp [storeRows, hname]

theorem eval_var_of_other (ρ : String → Nat) (env env' : Env) (v : ExportVariable)
    (h : env' v.name = env v.name) :
    (Expr.var v).eval ρ env' = (Expr.var v).eval ρ env := by
  cases hd : v.data with
  | none => simp [Expr.eval, hd, h]
  | some m => simp [Expr.eval, hd]

theorem stage_slot_unique (count width r : Nat) (h : r < count * width) :
    ∃! k, k < count ∧ k * width ≤ r ∧ r < (k + 1) * width := by
  have hw : 0 < width := by
    rcases Nat.eq_zero_or_pos width with h0 | h0
    · rw [h0] at h
      simp at h
    · exact h0
  refine ⟨r / width, ⟨?_, Nat.div_mul_le_self r width, ?_⟩, ?_⟩
  · exact (Nat.div_lt_iff_lt_mul hw).mpr h
  · have := Nat.lt_mul_div_succ r hw
    rw [Nat.mul_comm]
    exact this
  · rintro k ⟨_, hlo, hhi⟩
    exact (Nat.div_eq_of_lt_le hlo hhi).symm

theorem codeItems_append (l₁ l₂ : List BlockItem) :
    codeItems (l₁ ++ l₂) = codeItems l₁ ++ codeItems l₂ := by
  simp [codeItems]

theorem codeItems_map_functionCall {α : Type} (l : List α) (name : α → String)
    (args : α → List Expr) :
    codeItems
        (l.map fun a => BlockItem.statement (ExportStatement.functionCall (name a) (args a))) =
      l.map fun a => BlockItem.statement (ExportStatement.functionCall (name a) (args a)) := by
  induction l with
  | nil => rfl
  | cons a rest ih =>
    simp only [codeItems] at ih
    simp [codeItems, BlockItem.isLinebreak, ih]

theorem solver_proj_of_shape {α : Type} (π : ExportGaussNewtonHpmpc → α) (c a b : Prop)
    [Decidable c] [Decidable a] [Decidable b] (rv : returnValue)
    (w x y z : ExportGaussNewtonHpmpc) :
    π (if c then Result.fatal rv w
        else if a then Result.assertionFailed x
        else if b then Result.assertionFailed y
        else Result.returned returnValue.SUCCESSFUL_RETURN z).solver =
      if c then π w else if a then π x else if b then π y else π z := by
  split_ifs <;> rfl

theorem value_of_shape (c a b : Prop) [Decidable c] [Decidable a] [Decidable b]
    (rv : returnValue) (w x y z : ExportGaussNewtonHpmpc) :
    (if c then Result.fatal rv w
        else if a then Result.assertionFailed x
        else if b then Result.assertionFailed y
        else Result.returned returnValue.SUCCESSFUL_RETURN z).value =
      if c then some rv else if a then none else if b then none
        else some returnValue.SUCCESSFUL_RETURN := by
  split_ifs <;> rfl

theorem setupObjectiveEvaluation_value (s : ExportGaussNewtonHpmpc) :
    (setupObjectiveEvaluation s).value =
      if (s.S1.isGiven == false || s.S1.getGivenMatrix.isZero == false) = true then
        some returnValue.RET_INVALID_ARGUMENTS
      else if (s.Q1.isGiven == true && s.QN1.isGiven == true) = false then none
      else if (s.R1.isGiven == true) = false then none
      else some returnValue.SUCCESSFUL_RETURN :=
  value_of_shape _ _ _ _ _ _ _ _

theorem setupObjectiveEvaluation_initializeFcn (s : ExportGaussNewtonHpmpc) :
    (setupObjectiveEvaluation s).solver.initializeFcn =
      if (s.S1.isGiven == false || s.S1.getGivenMatrix.isZero == false) = true then
        s.initializeFcn
      else if (s.Q1.isGiven == true && s.QN1.isGiven == true) = false then s.initializeFcn
      else if (s.R1.isGiven == true) = false then s.initializeFcn
      else
        (forLoop 0 s.N
          (fun blk (f : ExportFunction) => f.addStatement
            (.assign
              (.getSubMatrix
                (.var (ExportVariable.setup "qpR" (s.N * s.NU) s.NU .REAL .ACADO_WORKSPACE))
                (.const (blk * s.NU)) (.const ((blk + 1) * s.NU)) (.const 0) (.const s.NU))
              (.var s.R1)))
          ((forLoop 0 s.N
            (fun blk (f : ExportFunction) => f.addStatement
              (.assign
                (.getSubMatrix
                  (.var (ExportVariable.setup "qpQ" (s.N * s.NX) s.NX .REAL .ACADO_WORKSPACE))
                  (.const (blk * s.NX)) (.const ((blk + 1) * s.NX)) (.const 0) (.const s.NX))
                (.var s.Q1)))
            s.initializeFcn).addStatement
              (.assign
                (.var (ExportVariable.setup "qpQf" s.NX s.NX .REAL .ACADO_WORKSPACE))
                (.var s.QN1)))).addStatement
          (.assign (.var (ExportVariable.setup "qpS" (s.N * s.NX) s.NU .REAL .ACADO_WORKSPACE))
            (.var (ExportVariable.ofMatrix (zeros (s.N * s.NX) s.NU)))) :=
  solver_proj_of_shape (fun t => t.initializeFcn) _ _ _ _ _ _ _ _

theorem setupObjectiveEvaluation_qpQ (s : ExportGaussNewtonHpmpc) :
    (setupObjectiveEvaluation s).solver.qpQ =
      if (s.S1.isGiven == false || s.S1.getGivenMatrix.isZero == false) = true then s.qpQ
      else if (s.Q1.isGiven == true && s.QN1.isGiven == true) = false then
        ExportVariable.setup "qpQ" (s.N * s.NX) s.NX .REAL .ACADO_WORKSPACE
      else if (s.R1.isGiven == true) = false then
        ExportVariable.setup "qpQ" (s.N * s.NX) s.NX .REAL .ACADO_WORKSPACE
      else ExportVariable.setup "qpQ" (s.N * s.NX) s.NX .REAL .ACADO_WORKSPACE :=
  solver_proj_of_shape (fun t => t.qpQ) _ _ _ _ _ _ _ _

theorem setupObjectiveEvaluation_qpR (s : ExportGaussNewtonHpmpc) :
    (setupObjectiveEvaluation s).solver.qpR =
      if (s.S1.isGiven == false || s.S1.getGivenMatrix.isZero == false) = true then s.qpR
      else if (s.Q1.isGiven == true && s.QN1.isGiven == true) = false then
        ExportVariable.setup "qpR" (s.N * s.NU) s.NU .REAL .ACADO_WORKSPACE
      else if (s.R1.isGiven == true) = false then
        ExportVariable.setup "qpR" (s.N * s.NU) s.NU .REAL .ACADO_WORKSPACE
      else ExportVariable.setup "qpR" (s.N * s.NU) s.NU .REAL .ACADO_WORKSPACE :=
  solver_proj_of_shape (fun t => t.qpR) _ _ _ _ _ _ _ _

theorem setupObjectiveEvaluation_qpQf (s : ExportGaussNewtonHpmpc) :
    (setupObjectiveEvaluation s).solver.qpQf =
      if (s.S1.isGiven == false || s.S1.getGivenMatrix.isZero == false) = true then s.qpQf
      else if (s.Q1.isGiven == true && s.QN1.isGiven == true) = false then
        ExportVariable.setup "qpQf" s.NX s.NX .REAL .ACADO_WORKSPACE
      else if (s.R1.isGiven == true) = false then
        ExportVariable.setup "qpQf" s.NX s.NX .REAL .ACADO_WORKSPACE
      else ExportVariable.setup "qpQf" s.NX s.NX .REAL .ACADO_WORKSPACE :=
  solver_proj_of_shape (fun t => t.qpQf) _ _ _ _ _ _ _ _

theorem setupObjectiveEvaluation_qpS (s : ExportGaussNewtonHpmpc) :
    (setupObjectiveEvaluation s).solver.qpS =
      if (s.S1.isGiven == false || s.S1.getGivenMatrix.isZero == false) = true then s.qpS
      else if (s.Q1.isGiven == true && s.QN1.isGiven == true) = false then
        ExportVariable.setup "qpS" (s.N * s.NX) s.NU .REAL .ACADO_WORKSPACE
      else if (s.R1.isGiven == true) = false then
        ExportVariable.setup "qpS" (s.N * s.NX) s.NU .REAL .ACADO_WORKSPACE
      else ExportVariable.setup "qpS" (s.N * s.NX) s.NU .REAL .ACADO_WORKSPACE :=
  solver_proj_of_shape (fun t => t.qpS) _ _ _ _ _ _ _ _

theorem setupObjectiveEvaluation_qp_variables (s : ExportGaussNewtonHpmpc)
    (h : (s.S1.isGiven == false || s.S1.getGivenMatrix.isZero == false) = false) :
    (setupObjectiveEvaluation s).solver.qpQ =
        ExportVariable.setup "qpQ" (s.N * s.NX) s.NX .REAL .ACADO_WORKSPACE ∧
      (setupObjectiveEvaluation s).solver.qpQf =
        ExportVariable.setup "qpQf" s.NX s.NX .REAL .ACADO_WORKSPACE ∧
      (setupObjectiveEvaluation s).solver.qpR =
        ExportVariable.setup "qpR" (s.N * s.NU) s.NU .REAL .ACADO_WORKSPACE ∧
      (setupObjectiveEvaluation s).solver.qpS =
        ExportVariable.setup "qpS" (s.N * s.NX) s.NU .REAL .ACADO_WORKSPACE := by
  rw [setupObjectiveEvaluation_qpQ, setupObjectiveEvaluation_qpQf,
    setupObjectiveEvaluation_qpR, setupObjectiveEvaluation_qpS, h]
  simp only [Bool.false_eq_true, if_false, ite_self, and_self]

theorem setupObjectiveEvaluation_initializeFcn_statements (s : ExportGaussNewtonHpmpc)
    (hS : (s.S1.isGiven == false || s.S1.getGivenMatrix.isZero == false) = false)
    (hQ : (s.Q1.isGiven == true && s.QN1.isGiven == true) = true)
    (hR : (s.R1.isGiven == true) = true) :
    (setupObjectiveEvaluation s).solver.initializeFcn.statements =
      s.initializeFcn.statements ++
        (((List.range s.N).map fun blk =>
            BlockItem.statement
              (.assign
                (.getSubMatrix
                  (.var (ExportVariable.setup "qpQ" (s.N * s.NX) s.NX .REAL .ACADO_WORKSPACE))
                  (.const (blk * s.NX)) (.const ((blk + 1) * s.NX)) (.const 0) (.const s.NX))
                (.var s.Q1))) ++
          [BlockItem.statement
            (.assign (.var (ExportVariable.setup "qpQf" s.NX s.NX .REAL .ACADO_WORKSPACE))
              (.var s.QN1))] ++
          ((List.range s.N).map fun blk =>
            BlockItem.statement
              (.assign
                (.getSubMatrix
                  (.var (ExportVariable.setup "qpR" (s.N * s.NU) s.NU .REAL .ACADO_WORKSPACE))
                  (.const (blk * s.NU)) (.const ((blk + 1) * s.NU)) (.const 0) (.const s.NU))
                (.var s.R1))) ++
          [BlockItem.statement
            (.assign (.var (ExportVariable.setup "qpS" (s.N * s.NX) s.NU .REAL .ACADO_WORKSPACE))
              (.var (ExportVariable.ofMatrix (zeros (s.N * s.NX) s.NU))))]) := by
  rw [setupObjectiveEvaluation_initializeFcn, hS, hQ, hR]
  simp only [Bool.false_eq_true, Bool.true_eq_false, if_false, forLoop_addStatement]
  simp [ExportFunction.addStatement, List.append_assoc]

theorem stageLoops_of_no_cross (s : ExportGaussNewtonHpmpc)
    (hc : (s.S1.isGiven == false || s.S1.getGivenMatrix.isZero == false) = false) :
    stageLoops s =
      [{ loopVariable := ExportIndex.var "runObj", startValue := 0, finalValue := s.N,
         statements :=
          [ExportStatement.assign
              (.getCols (.var s.objValueIn) (.const 0) (.const s.NX))
              (.getRow (.var s.x) (.var "runObj")),
            ExportStatement.assign
              (.getCols (.var s.objValueIn) (.const s.NX) (.const (s.NX + s.NU)))
              (.getRow (.var s.u) (.var "runObj")),
            ExportStatement.assign
              (.getCols (.var s.objValueIn) (.const (s.NX + s.NU))
                (.const (s.NX + s.NU + s.NOD)))
              (.getRow (.var s.od) (.var "runObj")),
            ExportStatement.linebreak 1,
            ExportStatement.functionCall s.evaluateLSQ.name
              [.var s.objValueIn, .var s.objValueOut],
            ExportStatement.assign
              (.getRows (.var s.Dy) (.mul (.var "runObj") (.const s.NY))
                (.mul (.add (.var "runObj") (.const 1)) (.const s.NY)))
              (.getRows (.getTranspose (.var s.objValueOut)) (.const 0) (.const s.NY)),
            ExportStatement.linebreak 1] ++
          (if s.Q1.isGiven = false then
            (if s.objEvFx.isGiven = true ∨ s.CG_USE_VARIABLE_WEIGHTING_MATRIX ≠ YES then
              [ExportStatement.functionCall "setObjQ1Q2"
                [if s.objEvFx.isGiven = true then Expr.var s.objEvFx
                  else .getAddress (.var s.objValueOut) (.const 0) (.const s.NY),
                 if s.CG_USE_VARIABLE_WEIGHTING_MATRIX = YES then
                    Expr.getAddress (.var s.objS) (.mul (.var "runObj") (.const s.NY)) (.const 0)
                  else .var s.objS,
                 .getAddress (.var s.Q1) (.mul (.var "runObj") (.const s.NX)) (.const 0),
                 .getAddress (.var s.Q2) (.mul (.var "runObj") (.const s.NX)) (.const 0)]]
            else []) ++ [ExportStatement.linebreak 1]
          else []) ++
          (if s.R1.isGiven = false then
            [ExportStatement.functionCall "setObjR1R2"
              [if s.objEvFu.isGiven = true then Expr.var s.objEvFu
                else .getAddress (.var s.objValueOut) (.const 0)
                  (.const (if s.Q1.isGiven = false ∧ s.objEvFx.isGiven = false then
                    s.NY + s.objEvFx.getDim else s.NY)),
               if s.CG_USE_VARIABLE_WEIGHTING_MATRIX = YES then
                  Expr.getAddress (.var s.objS) (.mul (.var "runObj") (.const s.NY)) (.const 0)
                else .var s.objS,
               .getAddress (.var s.R1) (.mul (.var "runObj") (.const s.NU)) (.const 0),
               .getAddress (.var s.R2) (.mul (.var "runObj") (.const s.NU)) (.const 0)],
             ExportStatement.linebreak 1]
          else []) }] := by
  unfold stageLoops setupObjectiveEvaluation
  lift_lets
  extract_lets evaluateObjective_10 variableObjS_0 runObj_0 loopObjective_11 evaluateObjective_9
    loopObjective_10 loopObjective_9 loopObjective_8 loopObjective_7 loopObjective_6
    loopObjective_5 loopObjective_4 indexX_2 tmpObjS_1 tmpObjS_0 tmpFx_1 tmpFx_0 tmpFu_1 tmpFu_0
    tmpFxEnd_1 tmpFxEnd_0 tmpObjSEndTerm_1 tmpObjSEndTerm_0 tmpQ1_0 tmpQ2_0 setObjQ1Q2_3
    setObjQ1Q2_2 setObjQ1Q2_1 loopObjective_3 inner_0 blockQ_0 setObjQ1Q2_0 loopObjective_2
    indexX_1 tmpR1_0 tmpR2_0 setObjR1R2_3 setObjR1R2_2 setObjR1R2_1 loopObjective_1 blockR_0
    setObjR1R2_0 loopObjective_0 evaluateObjective_8 evaluateObjective_7 evaluateObjective_6
    evaluateObjective_5 evaluateObjective_4 evaluateObjective_3 evaluateObjective_2 indexX_0
    tmpQN1_0 tmpQN2_0 setObjQN1QN2_3 setObjQN1QN2_2 setObjQN1QN2_1 evaluateObjective_1 blockQN_0
    setObjQN1QN2_0 evaluateObjective_0 index_0 qq_0 rr_0 setStagef_4 setStagef_3 setStagef_2
    setStagef_1 setStagef_0 qpQ_0 qpQf_0 qpR_0 qpS_0 built_0 initializeFcn_3 initializeFcn_2
    initializeFcn_1 initializeFcn_0
  have key : loopsOf (addedItems s.evaluateObjective evaluateObjective_0) = [loopObjective_0] := by
    simp only [evaluateObjective_0, blockQN_0, evaluateObjective_1, evaluateObjective_2,
      evaluateObjective_3, evaluateObjective_4, evaluateObjective_5, evaluateObjective_6,
      evaluateObjective_7, evaluateObjective_8, evaluateObjective_9, evaluateObjective_10,
      ExportFunction.addStatement, ExportFunction.addLoop, ExportFunction.addFunctionCall,
      ExportFunction.addLinebreak, ExportFunction.addIndex, ExportFunction.setup, addedItems]
    split_ifs <;> simp [loopsOf]
  have hloop : loopObjective_0 =
      { loopVariable := ExportIndex.var "runObj", startValue := 0, finalValue := s.N,
         statements :=
          [ExportStatement.assign
              (.getCols (.var s.objValueIn) (.const 0) (.const s.NX))
              (.getRow (.var s.x) (.var "runObj")),
            ExportStatement.assign
              (.getCols (.var s.objValueIn) (.const s.NX) (.const (s.NX + s.NU)))
              (.getRow (.var s.u) (.var "runObj")),
            ExportStatement.assign
              (.getCols (.var s.objValueIn) (.const (s.NX + s.NU))
                (.const (s.NX + s.NU + s.NOD)))
              (.getRow (.var s.od) (.var "runObj")),
            ExportStatement.linebreak 1,
            ExportStatement.functionCall s.evaluateLSQ.name
              [.var s.objValueIn, .var s.objValueOut],
            ExportStatement.assign
              (.getRows (.var s.Dy) (.mul (.var "runObj") (.const s.NY))
                (.mul (.add (.var "runObj") (.const 1)) (.const s.NY)))
              (.getRows (.getTranspose (.var s.objValueOut)) (.const 0) (.const s.NY)),
            ExportStatement.linebreak 1] ++
          (if s.Q1.isGiven = false then
            (if s.objEvFx.isGiven = true ∨ s.CG_USE_VARIABLE_WEIGHTING_MATRIX ≠ YES then
              [ExportStatement.functionCall "setObjQ1Q2"
                [if s.objEvFx.isGiven = true then Expr.var s.objEvFx
                  else .getAddress (.var s.objValueOut) (.const 0) (.const s.NY),
                 if s.CG_USE_VARIABLE_WEIGHTING_MATRIX = YES then
                    Expr.getAddress (.var s.objS) (.mul (.var "runObj") (.const s.NY)) (.const 0)
                  else .var s.objS,
                 .getAddress (.var s.Q1) (.mul (.var "runObj") (.const s.NX)) (.const 0),
                 .getAddress (.var s.Q2) (.mul (.var "runObj") (.const s.NX)) (.const 0)]]
            else []) ++ [ExportStatement.linebreak 1]
          else []) ++
          (if s.R1.isGiven = false then
            [ExportStatement.functionCall "setObjR1R2"
              [if s.objEvFu.isGiven = true then Expr.var s.objEvFu
                else .getAddress (.var s.objValueOut) (.const 0)
                  (.const (if s.Q1.isGiven = false ∧ s.objEvFx.isGiven = false then
                    s.NY + s.objEvFx.getDim else s.NY)),
               if s.CG_USE_VARIABLE_WEIGHTING_MATRIX = YES then
                  Expr.getAddress (.var s.objS) (.mul (.var "runObj") (.const s.NY)) (.const 0)
                else .var s.objS,
               .getAddress (.var s.R1) (.mul (.var "runObj") (.const s.NU)) (.const 0),
               .getAddress (.var s.R2) (.mul (.var "runObj") (.const s.NU)) (.const 0)],
             ExportStatement.linebreak 1]
          else []) } := by
    simp only [loopObjective_0, blockR_0, loopObjective_1, loopObjective_2, indexX_1, blockQ_0,
      inner_0, loopObjective_3, setObjR1R2_1, setObjR1R2_2, setObjR1R2_3, setObjQ1Q2_1,
      setObjQ1Q2_2, setObjQ1Q2_3, tmpFx_0, tmpFx_1, tmpFu_0, tmpFu_1, indexX_2,
      loopObjective_4, loopObjective_5, loopObjective_6, loopObjective_7, loopObjective_8,
      loopObjective_9, loopObjective_10, loopObjective_11, runObj_0, variableObjS_0]
    have hsetup : ∀ (name : String) (r c : Nat),
        (ExportVariable.setup name r c .REAL .ACADO_LOCAL).isGiven = false := fun _ _ _ => rfl
    cases hQ1 : s.Q1.isGiven <;> cases hR1 : s.R1.isGiven <;>
      cases hFx : s.objEvFx.isGiven <;> cases hFu : s.objEvFu.isGiven <;>
      by_cases hv : s.CG_USE_VARIABLE_WEIGHTING_MATRIX = YES <;>
      simp [ExportForLoop.addStatement, ExportForLoop.addFunctionCall,
        ExportForLoop.addLinebreak, ExportFunction.setup, ExportFunction.addStatement,
        ExportGaussNewtonHpmpc.getNX, ExportGaussNewtonHpmpc.getNY, hsetup, hQ1, hR1, hFx, hFu,
        hv]
  refine (solver_proj_of_shape
    (fun t => loopsOf (addedItems s.evaluateObjective t.evaluateObjective))
    _ _ _ _ _ _ _ _).trans ?_
  rw [if_neg (by rw [hc]; decide), ← hloop]
  by_cases ha : (s.Q1.isGiven == true && s.QN1.isGiven == true) = false
  · rw [if_pos ha]
    exact key
  · rw [if_neg ha]
    by_cases hb : (s.R1.isGiven == true) = false
    · rw [if_pos hb]
      exact key
    · rw [if_neg hb]
      exact key

/-! ## The claims -/

/-- C1: `setupObjectiveEvaluation` returns the invalid-arguments failure exactly
when the cross weighting `S1` is not given or its given matrix is not zero; on
that failure the solver object is the one it started from with only the name of
`evaluateObjective` set, so no statement (and no stage loop) has been added to
`evaluateObjective`, to `setStagef` or to the initialization function. -/
theorem setupObjectiveEvaluation_cross_term_rejected (s : ExportGaussNewtonHpmpc) :
    ((setupObjectiveEvaluation s).value = some returnValue.RET_INVALID_ARGUMENTS ↔
      (s.S1.isGiven = false ∨ s.S1.getGivenMatrix.isZero = false)) ∧
    ((setupObjectiveEvaluation s).value = some returnValue.RET_INVALID_ARGUMENTS →
      (setupObjectiveEvaluation s).solver =
          { s with evaluateObjective := s.evaluateObjective.setup "evaluateObjective" } ∧
        (setupObjectiveEvaluation s).solver.evaluateObjective.statements =
          s.evaluateObjective.statements ∧
        (setupObjectiveEvaluation s).solver.setStagef.statements = s.setStagef.statements ∧
        (setupObjectiveEvaluation s).solver.initializeFcn.statements =
          s.initializeFcn.statements) := by
  cases h : (s.S1.isGiven == false || s.S1.getGivenMatrix.isZero == false) with
  | true =>
    have hs := setupObjectiveEvaluation_of_cross s h
    have hc : s.S1.isGiven = false ∨ s.S1.getGivenMatrix.isZero = false := by
      simpa using h
    rw [hs]
    simp [Result.value, Result.solver, ExportFunction.setup, hc]
  | false =>
    have hv := setupObjectiveEvaluation_value_of_no_cross s h
    have hc : ¬ (s.S1.isGiven = false ∨ s.S1.getGivenMatrix.isZero = false) := by
      simpa using h
    exact ⟨⟨fun hv' => absurd hv' hv, fun hc' => absurd hc' hc⟩, fun hv' => absurd hv' hv⟩

/-- C1, at the scenario with a cross weighting that is not given. -/
theorem setupObjectiveEvaluation_cross_term_rejected_witness :
    (setupObjectiveEvaluation scenarioCrossNotGiven).value =
        some returnValue.RET_INVALID_ARGUMENTS ∧
      (setupObjectiveEvaluation scenarioCrossNotGiven).solver.initializeFcn.statements =
        scenarioCrossNotGiven.initializeFcn.statements :=
  ⟨by decide,
    ((setupObjectiveEvaluation_cross_term_rejected scenarioCrossNotGiven).2 (by decide)).2.2.2⟩

/-- C2: whenever the cross weighting `S1` of the solver object that `setup` hands
to `setupObjectiveEvaluation` is not given or has a nonzero payload, `setup` ends
with the invalid-arguments failure of that step and runs no later step: the
solver object it leaves is the one handed over with only the name of
`evaluateObjective` set, so `evaluateConstraints`, the preparation function, the
feedback function and `getKKT` are as they were and no partial program is built.
And `setup` ends in success only if `setupObjectiveEvaluation` has returned
success, in which case the later steps have run on what it has left. -/
theorem setup_stops_at_cross_term_failure (base : ExportNLPSolver)
    (s : ExportGaussNewtonHpmpc) :
    (((base.setupSimulation (setupVariables (base.setupInitialization s)).2).S1.isGiven =
          false ∨
        (base.setupSimulation
          (setupVariables (base.setupInitialization s)).2).S1.getGivenMatrix.isZero = false) →
      setup base s =
          Result.fatal returnValue.RET_INVALID_ARGUMENTS
            { base.setupSimulation (setupVariables (base.setupInitialization s)).2 with
              evaluateObjective :=
                (base.setupSimulation
                  (setupVariables (base.setupInitialization s)).2).evaluateObjective.setup
                  "evaluateObjective" } ∧
        (setup base s).value = some returnValue.RET_INVALID_ARGUMENTS ∧
        (setup base s).solver.evaluateConstraints =
          (base.setupSimulation
            (setupVariables (base.setupInitialization s)).2).evaluateConstraints ∧
        (setup base s).solver.preparation =
          (base.setupSimulation (setupVariables (base.setupInitialization s)).2).preparation ∧
        (setup base s).solver.feedback =
          (base.setupSimulation (setupVariables (base.setupInitialization s)).2).feedback ∧
        (setup base s).solver.getKKT =
          (base.setupSimulation (setupVariables (base.setupInitialization s)).2).getKKT ∧
        (setup base s).solver.evaluateObjective.statements =
          (base.setupSimulation
            (setupVariables (base.setupInitialization s)).2).evaluateObjective.statements ∧
        (setup base s).solver.initializeFcn =
          (base.setupSimulation
            (setupVariables (base.setupInitialization s)).2).initializeFcn) ∧
    ((setup base s).value = some returnValue.SUCCESSFUL_RETURN →
      (setupObjectiveEvaluation
          (base.setupSimulation (setupVariables (base.setupInitialization s)).2)).value =
        some returnValue.SUCCESSFUL_RETURN ∧
      (setup base s).solver =
        base.setupAuxiliaryFunctions
          (setupEvaluation
            (setupConstraintsEvaluation
              (setupObjectiveEvaluation
                (base.setupSimulation
                  (setupVariables (base.setupInitialization s)).2)).solver).2).2) := by
  constructor
  · intro hS
    have hc : ((base.setupSimulation (setupVariables (base.setupInitialization s)).2).S1.isGiven
          == false ||
        (base.setupSimulation
          (setupVariables (base.setupInitialization s)).2).S1.getGivenMatrix.isZero
          == false) = true := by
      simpa using hS
    have hobj := setupObjectiveEvaluation_of_cross _ hc
    have hsetup : setup base s =
        Result.fatal returnValue.RET_INVALID_ARGUMENTS
          { base.setupSimulation (setupVariables (base.setupInitialization s)).2 with
            evaluateObjective :=
              (base.setupSimulation
                (setupVariables (base.setupInitialization s)).2).evaluateObjective.setup
                "evaluateObjective" } := by
      simp only [setup, hobj]
    rw [hsetup]
    exact ⟨rfl, rfl, rfl, rfl, rfl, rfl, rfl, rfl⟩
  · intro hv
    cases hcross : ((base.setupSimulation
        (setupVariables (base.setupInitialization s)).2).S1.isGiven == false ||
      (base.setupSimulation
        (setupVariables (base.setupInitialization s)).2).S1.getGivenMatrix.isZero
        == false) with
    | true =>
      have hobj := setupObjectiveEvaluation_of_cross _ hcross
      simp only [setup, hobj, Result.value] at hv
      exact absurd hv (by simp)
    | false =>
      cases hres : setupObjectiveEvaluation
          (base.setupSimulation (setupVariables (base.setupInitialization s)).2) with
      | assertionFailed t =>
        simp only [setup, hres, Result.value] at hv
        exact absurd hv (by simp)
      | fatal rv t =>
        exact absurd hres (setupObjectiveEvaluation_not_fatal _ hcross rv t)
      | returned rv t =>
        have hval := setupObjectiveEvaluation_value
          (base.setupSimulation (setupVariables (base.setupInitialization s)).2)
        rw [hres, hcross] at hval
        simp only [Result.value, Bool.false_eq_true, if_false] at hval
        split_ifs at hval
        have hrv : rv = returnValue.SUCCESSFUL_RETURN := Option.some.inj hval
        subst hrv
        constructor
        · rfl
        · simp only [setup, hres, Result.solver]

/-- C2, at the scenario with a given, nonzero cross weighting: `setup` ends with
the invalid-arguments failure. -/
theorem setup_stops_at_cross_term_failure_witness :
    ((idleBase.setupSimulation
          (setupVariables (idleBase.setupInitialization scenarioCrossNonzero)).2).S1.isGiven =
          false ∨
        (idleBase.setupSimulation
          (setupVariables
            (idleBase.setupInitialization scenarioCrossNonzero)).2).S1.getGivenMatrix.isZero =
          false) ∧
      (setup idleBase scenarioCrossNonzero).value = some returnValue.RET_INVALID_ARGUMENTS :=
  ⟨by decide,
    ((setup_stops_at_cross_term_failure idleBase scenarioCrossNonzero).1 (by decide)).2.1⟩

/-- C3: the external solver call is the one raw statement `setupEvaluation` adds
to the feedback function; it assigns to the return variable of the feedback
function; its arguments are, in this order, `N, NX, NU, evGx, evGu, d, qpQ, qpQf,
qpS, qpR, qpq, qpqf, qpr, qpLb, qpUb, qpx, qpu, nIt`; position by position they
meet the parameters `N, nx, nu, A, B, d, Q, Qf, S, R, q, qf, r, lb, ub, x, u, nIt`
of the forward declaration of `acado_hpmpc_ip_wrapper` (counts meet `unsigned`,
addresses meet pointers), which is the first item `getCode` appends, ahead of
every function definition. -/
theorem feedback_solver_call_contract (s : ExportGaussNewtonHpmpc) (code : List CodeItem) :
    rawStatements (addedItems s.feedback (setupEvaluation s).2.feedback) =
        [feedbackSolverCall s] ∧
      (∃ retVal, (setupEvaluation s).2.feedback.returnValue = some retVal ∧
        (feedbackSolverCall s).take 3 =
          [Piece.fullName retVal, Piece.str " = ", Piece.str "acado_hpmpc_ip_wrapper("]) ∧
      callArguments (feedbackSolverCall s) =
        [Piece.toString (setupEvaluation s).2.N, Piece.toString (setupEvaluation s).2.NX,
         Piece.toString (setupEvaluation s).2.NU,
         Piece.addressString (setupEvaluation s).2.evGx true,
         Piece.addressString (setupEvaluation s).2.evGu true,
         Piece.addressString (setupEvaluation s).2.d true,
         Piece.addressString (setupEvaluation s).2.qpQ true,
         Piece.addressString (setupEvaluation s).2.qpQf true,
         Piece.addressString (setupEvaluation s).2.qpS true,
         Piece.addressString (setupEvaluation s).2.qpR true,
         Piece.addressString (setupEvaluation s).2.qpq true,
         Piece.addressString (setupEvaluation s).2.qpqf true,
         Piece.addressString (setupEvaluation s).2.qpr true,
         Piece.addressString (setupEvaluation s).2.qpLb true,
         Piece.addressString (setupEvaluation s).2.qpUb true,
         Piece.addressString (setupEvaluation s).2.qpx true,
         Piece.addressString (setupEvaluation s).2.qpu true,
         Piece.addressString (setupEvaluation s).2.nIt true] ∧
      (declaredParameters forwardDeclaration).map Prod.snd =
        ["N", "nx", "nu", "A", "B", "d", "Q", "Qf", "S", "R", "q", "qf", "r", "lb", "ub",
         "x", "u", "nIt"] ∧
      (callArguments (feedbackSolverCall s)).length =
        (declaredParameters forwardDeclaration).length ∧
      List.Forall₂ (fun (arg : Piece) (param : String × String) => arg.fits param.1 = true)
        (callArguments (feedbackSolverCall s)) (declaredParameters forwardDeclaration) ∧
      declaredSymbol forwardDeclaration = "acado_hpmpc_ip_wrapper" ∧
      (∃ rest, (getCode s code).2.2 =
        code ++ CodeItem.statement (ExportStatement.string [Piece.str forwardDeclaration]) ::
          rest) ∧
      (CodeItem.statement (ExportStatement.string [Piece.str forwardDeclaration])).isFunction =
        false := by
  have hfeed := setupEvaluation_feedback_statements s
  have hargs : callArguments (feedbackSolverCall s) =
      [Piece.toString s.N, Piece.toString s.NX, Piece.toString s.NU,
       Piece.addressString s.evGx true, Piece.addressString s.evGu true,
       Piece.addressString s.d true, Piece.addressString s.qpQ true,
       Piece.addressString s.qpQf true, Piece.addressString s.qpS true,
       Piece.addressString s.qpR true,
       Piece.addressString (setupEvaluation s).2.qpq true,
       Piece.addressString (setupEvaluation s).2.qpqf true,
       Piece.addressString (setupEvaluation s).2.qpr true,
       Piece.addressString s.qpLb true, Piece.addressString s.qpUb true,
       Piece.addressString (setupEvaluation s).2.qpx true,
       Piece.addressString (setupEvaluation s).2.qpu true,
       Piece.addressString (setupEvaluation s).2.nIt true] := by
    rw [feedbackSolverCall_eq]
    simp [callArguments, Piece.isText]
  refine ⟨?_, ?_, ?_, ?_, ?_, ?_, by decide, ?_, rfl⟩
  · rw [addedItems_append _ _ _ hfeed]
    simp [rawStatements_append, rawStatements, rawStatements_map_functionCall]
  · refine ⟨(ExportVariable.setup "retVal" 1 1 .INT .ACADO_LOCAL true).setDoc
      "Status code of the FORCES QP solver.", ?_, ?_⟩
    · simp only [setupEvaluation, ExportFunction.addFunctionCall, forLoop_addStatement]
      simp [ExportFunction.addStatement, ExportFunction.addLinebreak, ExportFunction.insert,
        ExportFunction.setup, ExportFunction.setDescription, ExportFunction.setReturnValue]
    · rw [feedbackSolverCall_eq]
      rfl
  · rw [hargs]
    rfl
  · rw [declaredParameters_forwardDeclaration]
    rfl
  · rw [hargs, declaredParameters_forwardDeclaration]
    rfl
  · rw [hargs, declaredParameters_forwardDeclaration]
    have hd : ("double*".toList.getLast? == some '*') = true := by decide
    have hi : ("int*".toList.getLast? == some '*') = true := by decide
    simp [Piece.fits, hd, hi]
  · simp only [getCode]
    split_ifs <;> simp

/-- C4 (as the code has it): the external solver call built into the feedback
function has exactly 18 positional arguments, for every problem. -/
theorem feedback_solver_call_has_18_arguments (s : ExportGaussNewtonHpmpc) :
    (callArguments (feedbackSolverCall s)).length = 18 := by
  rw [feedbackSolverCall_eq]
  simp [callArguments, Piece.isText]

/-- C4 (the claim as stated fails): at the scenario `N = 2`, `NX = 2`, `NU = 1`,
`NY = 2` the external solver call does not have 17 positional arguments. -/
theorem feedback_solver_call_not_17_arguments :
    (callArguments (feedbackSolverCall scenario)).length ≠ 17 := by
  decide

/-- C5: the flattened lower (upper) bound constant that `setupConstraintsEvaluation`
builds is the concatenation of the control lower (upper) bounds of stages
`0 .. N-1` followed by the state lower (upper) bounds of stages `1 .. N`; when
every control bound vector has length `NU` and every state bound vector of the
stages `1 .. N` has length `NX`, its length is `N*NU + N*NX`, the declared number
of rows of `qpLb` and `qpUb`. -/
theorem bound_constants_flattened (s : ExportGaussNewtonHpmpc)
    (hu : ∀ node, node < s.N →
      (s.uBounds.getLowerBounds node).length = s.NU ∧
        (s.uBounds.getUpperBounds node).length = s.NU)
    (hx : ∀ node, 1 ≤ node → node ≤ s.N →
      (s.xBounds.getLowerBounds node).length = s.NX ∧
        (s.xBounds.getUpperBounds node).length = s.NX) :
    (setupConstraintsEvaluation s).2.evLbValues.data =
        some (DVector.toColumn
          (((List.range s.N).map fun node => s.uBounds.getLowerBounds node).flatten ++
            ((List.range' 1 s.N).map fun node => s.xBounds.getLowerBounds node).flatten)) ∧
      (setupConstraintsEvaluation s).2.evUbValues.data =
        some (DVector.toColumn
          (((List.range s.N).map fun node => s.uBounds.getUpperBounds node).flatten ++
            ((List.range' 1 s.N).map fun node => s.xBounds.getUpperBounds node).flatten)) ∧
      (setupConstraintsEvaluation s).2.evLbValues.getGivenMatrix.length =
        s.N * s.NU + s.N * s.NX ∧
      (setupConstraintsEvaluation s).2.evUbValues.getGivenMatrix.length =
        s.N * s.NU + s.N * s.NX ∧
      (setupConstraintsEvaluation s).2.evLbValues.nRows = s.N * s.NU + s.N * s.NX ∧
      (setupConstraintsEvaluation s).2.evUbValues.nRows = s.N * s.NU + s.N * s.NX ∧
      (setupConstraintsEvaluation s).2.qpLb.nRows = s.N * s.NU + s.N * s.NX ∧
      (setupConstraintsEvaluation s).2.qpUb.nRows = s.N * s.NU + s.N * s.NX := by
  obtain ⟨hlb, hub⟩ := setupConstraintsEvaluation_values s
  have hul := length_flatten_of_uniform (List.range s.N) s.uBounds.getLowerBounds s.NU
    fun node hn => (hu node (List.mem_range.mp hn)).1
  have huu := length_flatten_of_uniform (List.range s.N) s.uBounds.getUpperBounds s.NU
    fun node hn => (hu node (List.mem_range.mp hn)).2
  have hxl := length_flatten_of_uniform (List.range' 1 s.N) s.xBounds.getLowerBounds s.NX
    fun node hn => (hx node (List.mem_range'_1.mp hn).1
      (by have := (List.mem_range'_1.mp hn).2; omega)).1
  have hxu := length_flatten_of_uniform (List.range' 1 s.N) s.xBounds.getUpperBounds s.NX
    fun node hn => (hx node (List.mem_range'_1.mp hn).1
      (by have := (List.mem_range'_1.mp hn).2; omega)).2
  simp only [List.length_range, List.length_range'] at hul huu hxl hxu
  rw [hlb, hub]
  refine ⟨rfl, rfl, ?_, ?_, ?_, ?_, ?_, ?_⟩
  · simp only [ExportVariable.setupGiven, ExportVariable.getGivenMatrix, DVector.toColumn,
      Option.getD_some, List.length_map, List.length_append, hul, hxl]
  · simp only [ExportVariable.setupGiven, ExportVariable.getGivenMatrix, DVector.toColumn,
      Option.getD_some, List.length_map, List.length_append, huu, hxu]
  · simp only [ExportVariable.setupGiven, List.length_append, hul, hxl]
  · simp only [ExportVariable.setupGiven, List.length_append, huu, hxu]
  · simp [setupConstraintsEvaluation, ExportVariable.setup]
  · simp [setupConstraintsEvaluation, ExportVariable.setup]

/-- C5, at the end-to-end scenario: `N = 2`, `NX = 2`, `NU = 1` gives bound
constants of length 6. -/
theorem bound_constants_flattened_witness :
    (setupConstraintsEvaluation scenario).2.evLbValues.getGivenMatrix.length = 6 ∧
      (setupConstraintsEvaluation scenario).2.evUbValues.getGivenMatrix.length = 6 :=
  ⟨(bound_constants_flattened scenario (by decide) (by decide)).2.2.1,
    (bound_constants_flattened scenario (by decide) (by decide)).2.2.2.1⟩

/-- C6: with `u` of shape `N x NU` and `x` of shape `(N+1) x NX` (and neither of
them named like the two residual operands), the four statements that
`setupConstraintsEvaluation` adds to `evaluateConstraints` are plain assignments
whose two sides have equal shapes and whose differences have operands of equal
shapes; running them stores, for `i < N*NU`, `qpLb[i] = evLbValues[i] - vec(u)[i]`
and `qpUb[i] = evUbValues[i] - vec(u)[i]`, and for `j < N*NX`,
`qpLb[N*NU + j] = evLbValues[N*NU + j] - vec(x)[NX + j]` and the same for `qpUb`,
where `vec` reads the rows of an operand one after the other; every row of `qpLb`
and `qpUb` lies in exactly one of the ranges `[0, N*NU)` and
`[N*NU, N*NU + N*NX)`; and no statement writes `evLbValues` or `evUbValues`. -/
theorem evaluateConstraints_bound_residual (s : ExportGaussNewtonHpmpc)
    (ρ : String → Nat) (env : Env)
    (hu : s.u.nRows = s.N ∧ s.u.nCols = s.NU)
    (hx : s.x.nRows = s.N + 1 ∧ s.x.nCols = s.NX)
    (hnames : s.u.name ≠ "qpLb" ∧ s.u.name ≠ "qpUb" ∧ s.x.name ≠ "qpLb" ∧ s.x.name ≠ "qpUb") :
    (∃ stmts,
      plainStatements
          (addedItems s.evaluateConstraints (setupConstraintsEvaluation s).2.evaluateConstraints) =
        some stmts ∧
      stmts.length = 4 ∧
      (∀ st ∈ stmts, ∃ lhs rhs, st = ExportStatement.assign lhs rhs ∧
        lhs.dims ρ = rhs.dims ρ ∧ rhs.operandsAgree ρ = true) ∧
      ∃ env', execStatements ρ stmts env = some env' ∧
        (∀ i, i < s.N * s.NU →
          env' "qpLb" i 0 =
              (setupConstraintsEvaluation s).2.evLbValues.getGivenMatrix.entry i 0 -
                (Expr.var s.u).eval ρ env (i / s.NU) (i % s.NU) ∧
            env' "qpUb" i 0 =
              (setupConstraintsEvaluation s).2.evUbValues.getGivenMatrix.entry i 0 -
                (Expr.var s.u).eval ρ env (i / s.NU) (i % s.NU)) ∧
        (∀ j, j < s.N * s.NX →
          env' "qpLb" (s.N * s.NU + j) 0 =
              (setupConstraintsEvaluation s).2.evLbValues.getGivenMatrix.entry
                  (s.N * s.NU + j) 0 -
                (Expr.var s.x).eval ρ env ((s.NX + j) / s.NX) ((s.NX + j) % s.NX) ∧
            env' "qpUb" (s.N * s.NU + j) 0 =
              (setupConstraintsEvaluation s).2.evUbValues.getGivenMatrix.entry
                  (s.N * s.NU + j) 0 -
                (Expr.var s.x).eval ρ env ((s.NX + j) / s.NX) ((s.NX + j) % s.NX))) ∧
      (∀ r, r < (setupConstraintsEvaluation s).2.qpLb.nRows →
        (r < s.N * s.NU ∧ ¬ (s.N * s.NU ≤ r ∧ r < s.N * s.NU + s.N * s.NX)) ∨
          (¬ r < s.N * s.NU ∧ (s.N * s.NU ≤ r ∧ r < s.N * s.NU + s.N * s.NX))) ∧
      (setupConstraintsEvaluation s).2.qpUb.nRows = (setupConstraintsEvaluation s).2.qpLb.nRows ∧
      (∀ it ∈ addedItems s.evaluateConstraints (setupConstraintsEvaluation s).2.evaluateConstraints,
        it.writes "evLbValues" = false ∧ it.writes "evUbValues" = false) := by
  obtain ⟨hur, huc⟩ := hu
  obtain ⟨hxr, hxc⟩ := hx
  obtain ⟨hn1, hn2, hn3, hn4⟩ := hnames
  have hst := setupConstraintsEvaluation_statements s
  have hadd := addedItems_append _ _ _ hst
  have hqpLb : (setupConstraintsEvaluation s).2.qpLb =
      ExportVariable.setup "qpLb" (s.N * s.NU + s.N * s.NX) 1 .REAL .ACADO_WORKSPACE := rfl
  have hqpUb : (setupConstraintsEvaluation s).2.qpUb =
      ExportVariable.setup "qpUb" (s.N * s.NU + s.N * s.NX) 1 .REAL .ACADO_WORKSPACE := rfl
  obtain ⟨hlb, hub⟩ := setupConstraintsEvaluation_values s
  rw [hadd]
  cases hud : s.u.data <;> cases hxd : s.x.data <;>
  (refine ⟨⟨_, rfl, rfl, ?_, ?_⟩, ?_, ?_, ?_⟩
   · intro st hmem
     simp only [List.mem_cons, List.mem_singleton, List.not_mem_nil, or_false] at hmem
     rcases hmem with h | h | h | h <;> subst h <;> refine ⟨_, _, rfl, ?_, ?_⟩ <;>
       simp [Expr.dims, Expr.operandsAgree, ExportIndex.eval, hur, huc, hxr, hxc, hqpLb, hqpUb,
         ExportVariable.setup, hlb, hub, ExportVariable.setupGiven] <;> ring_nf <;> omega
   · simp only [execStatements, exec_assign_rows, Option.some_bind]
     refine ⟨_, rfl, ?_, ?_⟩
     · intro i hi
       have hib : i < s.N * s.NU + s.N * s.NX := by omega
       constructor <;>
         simp [storeRows, Expr.eval, Expr.dims, ExportIndex.eval, hqpLb, hqpUb, hlb, hub,
           ExportVariable.setup, ExportVariable.setupGiven, ExportVariable.getGivenMatrix,
           hud, hxd, hi, hib, huc, hxc, hn1, hn2, hn3, hn4]
     · intro j hj
       constructor <;>
         simp [storeRows, Expr.eval, Expr.dims, ExportIndex.eval, hqpLb, hqpUb, hlb, hub,
           ExportVariable.setup, ExportVariable.setupGiven, ExportVariable.getGivenMatrix,
           hud, hxd, hj, huc, hxc, hn1, hn2, hn3, hn4]
   · intro r hr
     rw [hqpLb] at hr
     simp only [ExportVariable.setup] at hr
     omega
   · rfl
   · intro it hmem
     simp only [List.mem_cons, List.mem_singleton, List.not_mem_nil, or_false] at hmem
     rcases hmem with h | h | h | h <;> subst h <;>
       simp [BlockItem.writes, ExportStatement.writes, Expr.base, hqpLb, hqpUb,
         ExportVariable.setup])

/-- C6, at the end-to-end scenario with all run-time contents zero. -/
theorem evaluateConstraints_bound_residual_witness :
    (scenario.u.nRows = scenario.N ∧ scenario.u.nCols = scenario.NU) ∧
      (scenario.x.nRows = scenario.N + 1 ∧ scenario.x.nCols = scenario.NX) ∧
      ∀ it ∈ addedItems scenario.evaluateConstraints
          (setupConstraintsEvaluation scenario).2.evaluateConstraints,
        it.writes "evLbValues" = false ∧ it.writes "evUbValues" = false :=
  ⟨by decide, by decide,
    (evaluateConstraints_bound_residual scenario (fun _ => 0) (fun _ _ _ => 0)
      (by decide) (by decide) (by decide)).2.2.2⟩

/-- C7: without the line breaks, the statements `setupEvaluation` adds to the
feedback function are, in this order: the initial-state residual
`qpx[0..NX) = x0 - x.row(0)^T`; `Dy -= y`; `DyN -= yN`; `N` calls of `setStagef`,
the `i`-th with the address of `qpq` at offset `i*NX`, the address of `qpr` at
offset `i*NU` and the constant index `i`; `qpqf = QN2 * DyN`; the external solver
call; `x += qpx`; `u += qpu`. So the solver call is item `N + 4`, after every
residual and gradient statement and before both accumulations, and the slices
`[i*NX, (i+1)*NX)` of `qpq` and `[i*NU, (i+1)*NU)` of `qpr` that the `N` calls
write are pairwise disjoint and cover all rows: every row lies in exactly one. -/
theorem feedback_statement_order (s : ExportGaussNewtonHpmpc) :
    codeItems (addedItems s.feedback (setupEvaluation s).2.feedback) =
        [BlockItem.statement
            (.assign (.getRows (.var (setupEvaluation s).2.qpx) (.const 0) (.const s.NX))
              (.sub (.var s.x0) (.getTranspose (.getRow (.var s.x) (.const 0))))),
          BlockItem.statement (.subAssign (.var s.Dy) (.var s.y)),
          BlockItem.statement (.subAssign (.var s.DyN) (.var s.yN))] ++
        ((List.range s.N).map fun i =>
          BlockItem.statement
            (.functionCall s.setStagef.name
              [.getAddress (.var (setupEvaluation s).2.qpq) (.const (i * s.NX)) (.const 0),
               .getAddress (.var (setupEvaluation s).2.qpr) (.const (i * s.NU)) (.const 0),
               .index (.const i)])) ++
        [BlockItem.statement
            (.assign (.var (setupEvaluation s).2.qpqf) (.mul (.var s.QN2) (.var s.DyN))),
          BlockItem.statement (.string (feedbackSolverCall s)),
          BlockItem.statement
            (.addAssign (.makeColVector (.var s.x)) (.var (setupEvaluation s).2.qpx)),
          BlockItem.statement
            (.addAssign (.makeColVector (.var s.u)) (.var (setupEvaluation s).2.qpu))] ∧
      (codeItems (addedItems s.feedback (setupEvaluation s).2.feedback)).length = s.N + 7 ∧
      (codeItems (addedItems s.feedback (setupEvaluation s).2.feedback)).get? (s.N + 4) =
        some (BlockItem.statement (.string (feedbackSolverCall s))) ∧
      (feedbackSolverCall s).get? 2 = some (Piece.str "acado_hpmpc_ip_wrapper(") ∧
      (setupEvaluation s).2.qpq.nRows = s.NX * s.N ∧
      (setupEvaluation s).2.qpr.nRows = s.NU * s.N ∧
      (∀ r, r < s.NX * s.N → ∃! i, i < s.N ∧ i * s.NX ≤ r ∧ r < (i + 1) * s.NX) ∧
      (∀ r, r < s.NU * s.N → ∃! i, i < s.N ∧ i * s.NU ≤ r ∧ r < (i + 1) * s.NU) := by
  have hfeed := setupEvaluation_feedback_statements s
  have hitems : codeItems (addedItems s.feedback (setupEvaluation s).2.feedback) =
      [BlockItem.statement
          (.assign (.getRows (.var (setupEvaluation s).2.qpx) (.const 0) (.const s.NX))
            (.sub (.var s.x0) (.getTranspose (.getRow (.var s.x) (.const 0))))),
        BlockItem.statement (.subAssign (.var s.Dy) (.var s.y)),
        BlockItem.statement (.subAssign (.var s.DyN) (.var s.yN))] ++
      ((List.range s.N).map fun i =>
        BlockItem.statement
          (.functionCall s.setStagef.name
            [.getAddress (.var (setupEvaluation s).2.qpq) (.const (i * s.NX)) (.const 0),
             .getAddress (.var (setupEvaluation s).2.qpr) (.const (i * s.NU)) (.const 0),
             .index (.const i)])) ++
      [BlockItem.statement
          (.assign (.var (setupEvaluation s).2.qpqf) (.mul (.var s.QN2) (.var s.DyN))),
        BlockItem.statement (.string (feedbackSolverCall s)),
        BlockItem.statement
          (.addAssign (.makeColVector (.var s.x)) (.var (setupEvaluation s).2.qpx)),
        BlockItem.statement
          (.addAssign (.makeColVector (.var s.u)) (.var (setupEvaluation s).2.qpu))] := by
    rw [addedItems_append _ _ _ hfeed, codeItems_append, codeItems_append,
      codeItems_map_functionCall]
    simp [codeItems, BlockItem.isLinebreak]
  refine ⟨hitems, ?_, ?_, ?_, rfl, rfl, ?_, ?_⟩
  · rw [hitems]
    simp
  · rw [hitems]
    have hlen : s.N + 4 = ([BlockItem.statement
          (.assign (.getRows (.var (setupEvaluation s).2.qpx) (.const 0) (.const s.NX))
            (.sub (.var s.x0) (.getTranspose (.getRow (.var s.x) (.const 0))))),
        BlockItem.statement (.subAssign (.var s.Dy) (.var s.y)),
        BlockItem.statement (.subAssign (.var s.DyN) (.var s.yN))] ++
      ((List.range s.N).map fun i =>
        BlockItem.statement
          (.functionCall s.setStagef.name
            [.getAddress (.var (setupEvaluation s).2.qpq) (.const (i * s.NX)) (.const 0),
             .getAddress (.var (setupEvaluation s).2.qpr) (.const (i * s.NU)) (.const 0),
             .index (.const i)]))).length + 1 := by
      simp
    rw [hlen, List.get?_eq_getElem?, List.getElem?_append_right (by omega)]
    simp
  · rw [feedbackSolverCall_eq]
    rfl
  · intro r hr
    exact stage_slot_unique s.N s.NX r (by rw [Nat.mul_comm]; exact hr)
  · intro r hr
    exact stage_slot_unique s.N s.NU r (by rw [Nat.mul_comm]; exact hr)

/-- C8: the statements `setupEvaluation` adds to the preparation function are
exactly three, in this order: the raw statement that assigns the result of the
model simulation call to the return variable of the function, the call of
`evaluateObjective`, the call of `evaluateConstraints`; the raw statement is the
only one that may write the return variable. -/
theorem preparation_statement_order (s : ExportGaussNewtonHpmpc) :
    ∃ retSim : ExportVariable,
      (setupEvaluation s).2.preparation.returnValue = some retSim ∧
      addedItems s.preparation (setupEvaluation s).2.preparation =
        [BlockItem.statement
            (.string [Piece.fullName retSim, Piece.str " = ",
              Piece.str s.modelSimulation.name, Piece.str "();\n"]),
          BlockItem.statement (.functionCall s.evaluateObjective.name []),
          BlockItem.statement (.functionCall s.evaluateConstraints.name [])] ∧
      (addedItems s.preparation (setupEvaluation s).2.preparation).filter
          (fun it => it.writes retSim.name) =
        [BlockItem.statement
            (.string [Piece.fullName retSim, Piece.str " = ",
              Piece.str s.modelSimulation.name, Piece.str "();\n"])] := by
  have hst : (setupEvaluation s).2.preparation.statements =
      s.preparation.statements ++
        [BlockItem.statement
            (.string [Piece.fullName
                ((ExportVariable.setup "ret" 1 1 .INT .ACADO_LOCAL true).setDoc
                  "Status of the integration module. =0: OK, otherwise the error code."),
              Piece.str " = ", Piece.str s.modelSimulation.name, Piece.str "();\n"]),
          BlockItem.statement (.functionCall s.evaluateObjective.name []),
          BlockItem.statement (.functionCall s.evaluateConstraints.name [])] := by
    simp [setupEvaluation, ExportFunction.addFunctionCall, ExportFunction.addStatement,
      ExportFunction.insert, ExportFunction.setup, ExportFunction.setDescription,
      ExportFunction.setReturnValue]
  refine ⟨(ExportVariable.setup "ret" 1 1 .INT .ACADO_LOCAL true).setDoc
    "Status of the integration module. =0: OK, otherwise the error code.", ?_, ?_, ?_⟩
  · simp [setupEvaluation, ExportFunction.addFunctionCall, ExportFunction.addStatement,
      ExportFunction.insert, ExportFunction.setup, ExportFunction.setDescription,
      ExportFunction.setReturnValue]
  · exact addedItems_append _ _ _ hst
  · rw [addedItems_append _ _ _ hst]
    simp [BlockItem.writes, ExportStatement.writes, ExportVariable.setup, ExportVariable.setDoc]

/-- C9 (the code departs from the claim): at the end-to-end scenario, whose
regularization scalar is `1/2`, the blocks the initialization function copies
into `qpQ` and `qpR` are the operands `Q1` and `R1` themselves, whose payloads
differ from `Q1 + 1/2 * I` and `R1 + 1/2 * I`; and for every problem and every
scalar the initialization function built is the one built with scalar zero. -/
theorem levenbergMarquardt_not_folded :
    scenario.levenbergMarquardt = 1 / 2 ∧
      (setupObjectiveEvaluation scenario).value = some returnValue.SUCCESSFUL_RETURN ∧
      (addedItems scenario.initializeFcn
          (setupObjectiveEvaluation scenario).solver.initializeFcn).map blockCopy =
        [some ((setupObjectiveEvaluation scenario).solver.qpQ, (0, 2), scenario.Q1),
         some ((setupObjectiveEvaluation scenario).solver.qpQ, (2, 4), scenario.Q1),
         none,
         some ((setupObjectiveEvaluation scenario).solver.qpR, (0, 1), scenario.R1),
         some ((setupObjectiveEvaluation scenario).solver.qpR, (1, 2), scenario.R1),
         none] ∧
      scenario.Q1.getGivenMatrix = [[1, 0], [0, 1]] ∧
      regularized scenario.Q1.getGivenMatrix scenario.levenbergMarquardt =
        [[3 / 2, 0], [0, 3 / 2]] ∧
      scenario.Q1.getGivenMatrix ≠
        regularized scenario.Q1.getGivenMatrix scenario.levenbergMarquardt ∧
      scenario.R1.getGivenMatrix ≠
        regularized scenario.R1.getGivenMatrix scenario.levenbergMarquardt ∧
      ∀ (s : ExportGaussNewtonHpmpc) (scalar : ℚ),
        (setupObjectiveEvaluation { s with levenbergMarquardt := scalar }).solver.initializeFcn =
          (setupObjectiveEvaluation { s with levenbergMarquardt := 0 }).solver.initializeFcn := by
  refine ⟨rfl, by decide, by decide, by decide, ?_, ?_, ?_, ?_⟩
  · simp [regularized, scenario, ExportVariable.getGivenMatrix, eye, DMatrix.scale,
      List.range_succ]
    norm_num
  · simp [regularized, scenario, ExportVariable.getGivenMatrix, eye, DMatrix.scale,
      List.range_succ]
  · simp [regularized, scenario, ExportVariable.getGivenMatrix, eye, DMatrix.scale,
      List.range_succ]
  intro s scalar
  rw [setupObjectiveEvaluation_initializeFcn, setupObjectiveEvaluation_initializeFcn]

/-- C10: with a given, zero cross weighting: if `Q1`, `QN1` and `R1` are given,
`setupObjectiveEvaluation` succeeds and appends to the initialization function
exactly `2N + 2` statements, in this order: for `blk = 0 .. N-1` the copy of `Q1`
into the rows `[blk*NX, (blk+1)*NX)` of `qpQ`, then `qpQf = QN1`, then for
`blk = 0 .. N-1` the copy of `R1` into the rows `[blk*NU, (blk+1)*NU)` of `qpR`,
then `qpS = zeros(N*NX, NU)`; every row of `qpQ` (of `qpR`) lies in exactly one
of the `N` row ranges. If one of `Q1`, `QN1`, `R1` is not given, the assertion
fails and the initialization function is left as it was. -/
theorem hessian_blocks_initialized (s : ExportGaussNewtonHpmpc)
    (hS : s.S1.isGiven = true ∧ s.S1.getGivenMatrix.isZero = true) :
    ((s.Q1.isGiven = true ∧ s.QN1.isGiven = true ∧ s.R1.isGiven = true) →
      (setupObjectiveEvaluation s).value = some returnValue.SUCCESSFUL_RETURN ∧
      addedItems s.initializeFcn (setupObjectiveEvaluation s).solver.initializeFcn =
        ((List.range s.N).map fun blk =>
            BlockItem.statement
              (.assign
                (.getSubMatrix (.var (setupObjectiveEvaluation s).solver.qpQ)
                  (.const (blk * s.NX)) (.const ((blk + 1) * s.NX)) (.const 0) (.const s.NX))
                (.var s.Q1))) ++
          [BlockItem.statement
            (.assign (.var (setupObjectiveEvaluation s).solver.qpQf) (.var s.QN1))] ++
          ((List.range s.N).map fun blk =>
            BlockItem.statement
              (.assign
                (.getSubMatrix (.var (setupObjectiveEvaluation s).solver.qpR)
                  (.const (blk * s.NU)) (.const ((blk + 1) * s.NU)) (.const 0) (.const s.NU))
                (.var s.R1))) ++
          [BlockItem.statement
            (.assign (.var (setupObjectiveEvaluation s).solver.qpS)
              (.var (ExportVariable.ofMatrix (zeros (s.N * s.NX) s.NU))))] ∧
      (addedItems s.initializeFcn (setupObjectiveEvaluation s).solver.initializeFcn).length =
        2 * s.N + 2 ∧
      (setupObjectiveEvaluation s).solver.qpQ.nRows = s.N * s.NX ∧
      (setupObjectiveEvaluation s).solver.qpR.nRows = s.N * s.NU ∧
      (setupObjectiveEvaluation s).solver.qpS.nRows = s.N * s.NX ∧
      (setupObjectiveEvaluation s).solver.qpS.nCols = s.NU ∧
      (∀ r, r < s.N * s.NX → ∃! blk, blk < s.N ∧ blk * s.NX ≤ r ∧ r < (blk + 1) * s.NX) ∧
      (∀ r, r < s.N * s.NU → ∃! blk, blk < s.N ∧ blk * s.NU ≤ r ∧ r < (blk + 1) * s.NU)) ∧
    (¬ (s.Q1.isGiven = true ∧ s.QN1.isGiven = true ∧ s.R1.isGiven = true) →
      (∃ t, setupObjectiveEvaluation s = Result.assertionFailed t) ∧
      (setupObjectiveEvaluation s).solver.initializeFcn = s.initializeFcn) := by
  obtain ⟨hS1, hS2⟩ := hS
  have hc : (s.S1.isGiven == false || s.S1.getGivenMatrix.isZero == false) = false := by
    simp [hS1, hS2]
  obtain ⟨hqQ, hqQf, hqR, hqS⟩ := setupObjectiveEvaluation_qp_variables s hc
  constructor
  · rintro ⟨hQ1, hQN1, hR1⟩
    have hQ : (s.Q1.isGiven == true && s.QN1.isGiven == true) = true := by simp [hQ1, hQN1]
    have hR : (s.R1.isGiven == true) = true := by simp [hR1]
    have hst := setupObjectiveEvaluation_initializeFcn_statements s hc hQ hR
    have hadd := addedItems_append _ _ _ hst
    rw [hadd, hqQ, hqQf, hqR, hqS]
    refine ⟨?_, rfl, ?_, rfl, rfl, rfl, rfl, ?_, ?_⟩
    · rw [setupObjectiveEvaluation_value, hc, hQ, hR]
      rfl
    · simp
      omega
    · intro r hr
      exact stage_slot_unique s.N s.NX r hr
    · intro r hr
      exact stage_slot_unique s.N s.NU r hr
  · intro hnot
    have hv := setupObjectiveEvaluation_value s
    have hi := setupObjectiveEvaluation_initializeFcn s
    rw [hc] at hv hi
    have hab : (s.Q1.isGiven == true && s.QN1.isGiven == true) = false ∨
        (s.R1.isGiven == true) = false := by
      by_contra hcon
      apply hnot
      cases h1 : s.Q1.isGiven <;> cases h2 : s.QN1.isGiven <;> cases h3 : s.R1.isGiven <;>
        simp [h1, h2, h3] at hcon ⊢
    have hvn : (setupObjectiveEvaluation s).value = none := by
      rw [hv, if_neg (by decide)]
      split_ifs with h1 h2
      · rfl
      · rfl
      · rcases hab with h | h
        · exact absurd h h1
        · exact absurd h h2
    constructor
    · cases hres : setupObjectiveEvaluation s with
      | returned rv t =>
        rw [hres] at hvn
        simp [Result.value] at hvn
      | fatal rv t =>
        rw [hres] at hvn
        simp [Result.value] at hvn
      | assertionFailed t => exact ⟨t, rfl⟩
    · rw [hi, if_neg (by decide)]
      split_ifs with h1 h2
      · rfl
      · rfl
      · rcases hab with h | h
        · exact absurd h h1
        · exact absurd h h2

/-- C10, at the end-to-end scenario: `N = 2` gives six statements, two block
copies into `qpQ` and two into `qpR` among them. -/
theorem hessian_blocks_initialized_witness :
    (scenario.S1.isGiven = true ∧ scenario.S1.getGivenMatrix.isZero = true) ∧
      (addedItems scenario.initializeFcn
          (setupObjectiveEvaluation scenario).solver.initializeFcn).length =
        2 * scenario.N + 2 :=
  ⟨by decide,
    ((hessian_blocks_initialized scenario (by decide)).1 (by decide)).2.2.1⟩

/-- C11 (the code departs from the claim): at the scenario with computed Hessian
blocks, per-stage variable weighting and Jacobians that are not given,
`setupObjectiveEvaluation` adds one stage loop over `runObj` in `[0, N)` whose
body holds no call of `setObjQ1Q2` at all, while it holds the one call of
`setObjR1R2`; with a given `Fx`, or with shared weighting, the one call of
`setObjQ1Q2` is there, with the arguments the claim lists. The same for every
problem with a given zero cross weighting (and a measurement function that is
not named like the helper): when `Q1` is not given, the body holds no call of
`setObjQ1Q2` if the weighting is variable and `Fx` is not given, and exactly the
claimed call otherwise; when `R1` is not given it holds exactly one call of
`setObjR1R2`, whose Jacobian slice starts at `NY`, or behind the slice of `Fx`
when `Q1` and `Fx` are both computed. -/
theorem stage_loop_misses_setObjQ1Q2_call :
    ((scenarioComputed 1 false).Q1.isGiven = false ∧
      (scenarioComputed 1 false).CG_USE_VARIABLE_WEIGHTING_MATRIX = YES ∧
      (scenarioComputed 1 false).objEvFx.isGiven = false ∧
      (stageLoops (scenarioComputed 1 false)).map
          (fun loop => (loop.loopVariable, loop.startValue, loop.finalValue)) =
        [(ExportIndex.var "runObj", 0, 2)] ∧
      stageLoopCalls (scenarioComputed 1 false) "setObjQ1Q2" = [[]] ∧
      stageLoopCalls (scenarioComputed 1 false) "setObjR1R2" =
        [[[.getAddress (.var (scenarioComputed 1 false).objValueOut) (.const 0) (.const 6),
           .getAddress (.var (scenarioComputed 1 false).objS)
             (.mul (.var "runObj") (.const 2)) (.const 0),
           .getAddress (.var (scenarioComputed 1 false).R1)
             (.mul (.var "runObj") (.const 1)) (.const 0),
           .getAddress (.var (scenarioComputed 1 false).R2)
             (.mul (.var "runObj") (.const 1)) (.const 0)]]]) ∧
    (stageLoopCalls (scenarioComputed 1 true) "setObjQ1Q2" =
        [[[.var (scenarioComputed 1 true).objEvFx,
           .getAddress (.var (scenarioComputed 1 true).objS)
             (.mul (.var "runObj") (.const 2)) (.const 0),
           .getAddress (.var (scenarioComputed 1 true).Q1)
             (.mul (.var "runObj") (.const 2)) (.const 0),
           .getAddress (.var (scenarioComputed 1 true).Q2)
             (.mul (.var "runObj") (.const 2)) (.const 0)]]] ∧
      stageLoopCalls (scenarioComputed 0 true) "setObjQ1Q2" =
        [[[.var (scenarioComputed 0 true).objEvFx, .var (scenarioComputed 0 true).objS,
           .getAddress (.var (scenarioComputed 0 true).Q1)
             (.mul (.var "runObj") (.const 2)) (.const 0),
           .getAddress (.var (scenarioComputed 0 true).Q2)
             (.mul (.var "runObj") (.const 2)) (.const 0)]]] ∧
      stageLoopCalls (scenarioComputed 0 false) "setObjQ1Q2" =
        [[[.getAddress (.var (scenarioComputed 0 false).objValueOut) (.const 0) (.const 2),
           .var (scenarioComputed 0 false).objS,
           .getAddress (.var (scenarioComputed 0 false).Q1)
             (.mul (.var "runObj") (.const 2)) (.const 0),
           .getAddress (.var (scenarioComputed 0 false).Q2)
             (.mul (.var "runObj") (.const 2)) (.const 0)]]]) ∧
    (∀ s : ExportGaussNewtonHpmpc,
      s.S1.isGiven = true ∧ s.S1.getGivenMatrix.isZero = true →
      (∃ loop, stageLoops s = [loop] ∧ loop.loopVariable = ExportIndex.var "runObj" ∧
        loop.startValue = 0 ∧ loop.finalValue = s.N) ∧
      (s.Q1.isGiven = false → s.evaluateLSQ.name ≠ "setObjQ1Q2" →
        (s.CG_USE_VARIABLE_WEIGHTING_MATRIX = YES ∧ s.objEvFx.isGiven = false →
          stageLoopCalls s "setObjQ1Q2" = [[]]) ∧
        (s.objEvFx.isGiven = true ∨ s.CG_USE_VARIABLE_WEIGHTING_MATRIX ≠ YES →
          stageLoopCalls s "setObjQ1Q2" =
            [[[if s.objEvFx.isGiven = true then Expr.var s.objEvFx
                else .getAddress (.var s.objValueOut) (.const 0) (.const s.NY),
               if s.CG_USE_VARIABLE_WEIGHTING_MATRIX = YES then
                  Expr.getAddress (.var s.objS) (.mul (.var "runObj") (.const s.NY)) (.const 0)
                else .var s.objS,
               .getAddress (.var s.Q1) (.mul (.var "runObj") (.const s.NX)) (.const 0),
               .getAddress (.var s.Q2) (.mul (.var "runObj") (.const s.NX)) (.const 0)]]])) ∧
      (s.R1.isGiven = false → s.evaluateLSQ.name ≠ "setObjR1R2" →
        stageLoopCalls s "setObjR1R2" =
          [[[if s.objEvFu.isGiven = true then Expr.var s.objEvFu
              else .getAddress (.var s.objValueOut) (.const 0)
                (.const (if s.Q1.isGiven = false ∧ s.objEvFx.isGiven = false then
                  s.NY + s.objEvFx.getDim else s.NY)),
             if s.CG_USE_VARIABLE_WEIGHTING_MATRIX = YES then
                Expr.getAddress (.var s.objS) (.mul (.var "runObj") (.const s.NY)) (.const 0)
              else .var s.objS,
             .getAddress (.var s.R1) (.mul (.var "runObj") (.const s.NU)) (.const 0),
             .getAddress (.var s.R2) (.mul (.var "runObj") (.const s.NU)) (.const 0)]]])) := by
  refine ⟨by decide, by decide, ?_⟩
  rintro s ⟨hS1, hS2⟩
  have hc : (s.S1.isGiven == false || s.S1.getGivenMatrix.isZero == false) = false := by
    simp [hS1, hS2]
  have hloops := stageLoops_of_no_cross s hc
  refine ⟨⟨_, hloops, rfl, rfl, rfl⟩, ?_, ?_⟩
  · intro hQ1 hname
    constructor
    · rintro ⟨hv, hFx⟩
      rw [stageLoopCalls, hloops]
      cases hR1 : s.R1.isGiven <;> simp [callsOf, hQ1, hFx, hv, hname]
    · intro hor
      rw [stageLoopCalls, hloops]
      cases hR1 : s.R1.isGiven <;> simp [callsOf, hQ1, hor, hname]
  · intro hR1 hname
    rw [stageLoopCalls, hloops]
    cases hQ1 : s.Q1.isGiven <;>
      by_cases hor : s.objEvFx.isGiven = true ∨ s.CG_USE_VARIABLE_WEIGHTING_MATRIX ≠ YES <;>
      simp [callsOf, hR1, hor, hname]

end Acado
